import Mathlib

/-!
Verification development for the team-manage service.

The definitions below are a shallow embedding of the Python source:
`app/services/team.py`, `app/services/chatgpt.py`,
`app/services/redemption.py`, `app/services/warranty.py` and the data
model in `app/models.py`.  Database entities become Lean structures,
database state becomes explicit values threaded through the operations,
timestamps become `Int`, and every upstream (network) interaction is an
explicit environment parameter so that each operation is a pure function
from (environment, state) to (state, structured result), exactly
mirroring the source's structured success/error dictionaries.
-/

namespace TeamManage

/-- Substring test helper: whether the character list `s` starts with `pat`.
Models Python's string prefix matching used by the `in` operator. -/
def strStartsWith : List Char → List Char → Bool
  | [], _ => true
  | _ :: _, [] => false
  | p :: ps, c :: cs => (p = c) && strStartsWith ps cs

/-- Substring occurrence over character lists (Python's `pat in s`). -/
def strContainsAux (pat : List Char) : List Char → Bool
  | [] => strStartsWith pat []
  | c :: rest => strStartsWith pat (c :: rest) || strContainsAux pat rest

/-- `strContainsSub s pat` models Python's `pat in s` on strings. -/
def strContainsSub (s pat : String) : Bool :=
  strContainsAux pat.data s.data

/-- ASCII lowercasing of one character (the error texts compared against
are ASCII, so this matches Python's `str.lower()` on them). -/
def lowerChar (c : Char) : Char :=
  if 'A' ≤ c ∧ c ≤ 'Z' then Char.ofNat (c.toNat + 32) else c

/-- `lowerStr s` models Python's `s.lower()`. -/
def lowerStr (s : String) : String := ⟨s.data.map lowerChar⟩

/-- `Team.status` values (`app/models.py`, column comment:
`active/full/expired/error/banned`). -/
inductive TStatus where
  | active
  | full
  | expired
  | error
  | banned
deriving DecidableEq, Repr

/-- The `Team` row (`app/models.py`), restricted to the fields the core
operations read or write.  Credential blobs are represented by their
decrypted view: `access_token` is the plaintext bearer token stored (the
source stores it encrypted and decrypts on use), and the presence flags
model the nullable `session_token_encrypted` / `refresh_token_encrypted`
/ `client_id` columns (Python truthiness: `None` and `\x22\x22` are both
absent). -/
structure Team where
  id : Nat
  email : String
  account_id : String
  access_token : String
  has_session_token : Bool
  has_refresh_token : Bool
  client_id : Option String
  current_members : Nat
  max_members : Nat
  status : TStatus
  error_count : Nat
  expires_at : Option Int
  last_sync : Option Int
deriving DecidableEq, Repr

/-- `expires_at and expires_at < now`: Python's truthiness-guarded
comparison used for expiry checks throughout the source. -/
def pastExpiry (e : Option Int) (now : Int) : Bool :=
  match e with
  | some t => t < now
  | none => false

/-- The account-banned classification of `TeamService._handle_api_error`
(`app/services/team.py` lines 45-51): `error_code` is
`account_deactivated` or `token_invalidated`, or the lowercased error
text contains `token has been invalidated` or `account_deactivated`. -/
def classifiedBanned (error_code : Option String) (error : String) : Bool :=
  let msg := lowerStr error
  error_code == some "account_deactivated" || error_code == some "token_invalidated"
    || strContainsSub msg "token has been invalidated"
    || strContainsSub msg "account_deactivated"

/-- The grant-invalid classification of `TeamService._handle_api_error`
(`app/services/team.py` line 60): `error_code == invalid_grant` or the
lowercased error text contains `invalid_grant`. -/
def classifiedGrantInvalid (error_code : Option String) (error : String) : Bool :=
  error_code == some "invalid_grant" || strContainsSub (lowerStr error) "invalid_grant"

/-- `TeamService._handle_api_error` (`app/services/team.py` lines 32-69):
banned classification sets `status = banned` and reports handled;
grant-invalid increments `error_count` and sets `status = error` once the
count reaches 3, reporting handled; anything else is not handled. -/
def handle_api_error (error_code : Option String) (error : String) (team : Team) :
    Team × Bool :=
  if classifiedBanned error_code error then
    ({ team with status := .banned }, true)
  else if classifiedGrantInvalid error_code error then
    let ec := team.error_count + 1
    ({ team with error_count := ec,
                 status := if 3 ≤ ec then .error else team.status }, true)
  else
    (team, false)

/-- `TeamService._reset_error_status` (`app/services/team.py` lines 71-79):
reset `error_count` to 0 and recover `error → active`; no other status is
touched. -/
def reset_error_status (team : Team) : Team :=
  let team := { team with error_count := 0 }
  if team.status = .error then { team with status := .active } else team

/-- Result dictionary of the token-refresh endpoints
(`refresh_access_token_with_session_token` /
`refresh_access_token_with_refresh_token`), as consumed by
`TeamService.ensure_access_token`: `success`, `access_token`, an optional
rotated `refresh_token`, and on failure the `error_code` / `error` fields
fed to `_handle_api_error`. -/
structure RefreshResult where
  success : Bool
  access_token : String
  refresh_token : Option String
  error_code : Option String
  error : String
deriving DecidableEq, Repr

/-- Environment of one `ensure_access_token` call: whether decrypting and
parsing the stored access token succeeds (`decrypt_ok`), whether its
embedded expiry has passed (`token_expired`), and the outcome each
refresh endpoint would produce if called. -/
structure TokenEnv where
  decrypt_ok : Bool
  token_expired : Bool
  session_refresh : RefreshResult
  oauth_refresh : RefreshResult
deriving DecidableEq, Repr

/-- Tail of `TeamService.ensure_access_token` (`app/services/team.py`
lines 144-152): when no refresh path succeeded and none was handled as a
fatal error, increment `error_count` (unless already banned) and mark
`error` at the third consecutive failure; return null. -/
def ensure_tail (team : Team) : Team × Option String :=
  if team.status ≠ .banned then
    let ec := team.error_count + 1
    ({ team with error_count := ec,
                 status := if 3 ≤ ec then .error else team.status }, none)
  else
    (team, none)

/-- OAuth refresh-token branch of `TeamService.ensure_access_token`
(`app/services/team.py` lines 124-142): attempted only when both
`refresh_token` and `client_id` are present; success stores the new
tokens, resets the error state and returns the token; a failure handled
by `_handle_api_error` returns null immediately; otherwise fall through
to the failure tail. -/
def ensure_oauth (env : TokenEnv) (team : Team) : Team × Option String :=
  if team.has_refresh_token ∧ team.client_id.isSome then
    let r := env.oauth_refresh
    if r.success then
      let team := { team with access_token := r.access_token }
      (reset_error_status team, some r.access_token)
    else
      let handled := handle_api_error r.error_code r.error team
      if handled.2 then (handled.1, none) else ensure_tail handled.1
  else
    ensure_tail team

/-- `TeamService.ensure_access_token` (`app/services/team.py` lines
81-152).  Return the stored token unchanged when it decrypts and is not
expired; otherwise try the session-token refresh (when a session token is
stored): success stores and returns the new token after resetting the
error state, while a failure handled by `_handle_api_error` (banned or
grant-invalid classification) returns null immediately; only an
unhandled failure falls through to the OAuth refresh branch. -/
def ensure_access_token (env : TokenEnv) (team : Team) : Team × Option String :=
  if env.decrypt_ok ∧ ¬ env.token_expired then
    (team, some team.access_token)
  else if team.has_session_token then
    let r := env.session_refresh
    if r.success then
      let team := { team with access_token := r.access_token }
      (reset_error_status team, some r.access_token)
    else
      let handled := handle_api_error r.error_code r.error team
      if handled.2 then (handled.1, none) else ensure_oauth env handled.1
  else
    ensure_oauth env team

/-- Structured result of a Team-level operation: the `success` flag and
the `error` message of the returned dictionary. -/
structure OpResult where
  success : Bool
  error : Option String
deriving DecidableEq, Repr

/-- One upstream Team account as returned by
`ChatGPTService.get_account_info` (`app/services/chatgpt.py` lines
448-507), with `expires_at` already in parsed form (the source parses the
ISO string and falls back to null on parse failure; `none` covers both
absent and unparseable). -/
structure AccountInfo where
  account_id : String
  name : String
  plan_type : String
  subscription_plan : String
  expires_at : Option Int
  has_active_subscription : Bool
deriving DecidableEq, Repr

/-- Result of `ChatGPTService.get_account_info` as consumed by
`sync_team_info`: the filtered team-account list on success, the error
code/message on failure. -/
structure AccountsResult where
  success : Bool
  accounts : List AccountInfo
  error_code : Option String
  error : String
deriving DecidableEq, Repr

/-- Result of `ChatGPTService.get_members` / `get_invites` as consumed by
the Team operations: the reported `total` on success, the error
code/message on failure. -/
structure CountResult where
  success : Bool
  total : Nat
  error_code : Option String
  error : String
deriving DecidableEq, Repr

/-- Result of a single upstream API call (`send_invite`, `delete_invite`,
`delete_member`) as consumed by the Team member operations. -/
structure CallResult where
  success : Bool
  error_code : Option String
  error : String
deriving DecidableEq, Repr

/-- Environment of one `sync_team_info` call: the token-refresh
environment and the responses of the three upstream queries it issues,
plus the current time. -/
structure SyncEnv where
  token : TokenEnv
  account : AccountsResult
  members : CountResult
  invites : CountResult
  now : Int
deriving DecidableEq, Repr

/-- Account selection of `TeamService.sync_team_info` step 4
(`app/services/team.py` lines 681-698): the account matching the stored
`account_id`, else the first with an active subscription, else the first
account overall. -/
def find_current_account (team_account_id : String) (accounts : List AccountInfo) :
    Option AccountInfo :=
  match accounts.find? (fun a => a.account_id = team_account_id) with
  | some a => some a
  | none =>
    match accounts.find? (fun a => a.has_active_subscription) with
    | some a => some a
    | none => accounts.head?

/-- Shared failure bookkeeping of `sync_team_info` when an upstream query
fails without a fatal classification (`app/services/team.py` lines
669-674 and 743-748): increment `error_count` and mark `error` at the
third failure. -/
def sync_count_error (team : Team) : Team :=
  let ec := team.error_count + 1
  { team with error_count := ec,
              status := if 3 ≤ ec then .error else team.status }

/-- `TeamService.sync_team_info` (`app/services/team.py` lines 605-800),
modelling the body after the Team row has been found (the not-found
branch returns an error without touching any state).  The function
refreshes the token, queries account info, selects the current account,
queries member and invite counts, recomputes the status as
full / expired / active, resets `error_count` and stamps `last_sync`.
Failure of the invites query (the source inspects `members_result` inside
that branch) runs the `_handle_api_error` / 3-strike bookkeeping; failure
of the members query alone only zeroes its contribution to the count.
`sync_after_token` is steps 3-8, entered once a token was obtained. -/
def sync_after_token (env : SyncEnv) (team : Team) : Team × OpResult :=
  if ¬ env.account.success then
    let handled := handle_api_error env.account.error_code env.account.error team
    if handled.2 then
      (handled.1, ⟨false, some env.account.error⟩)
    else
      (sync_count_error handled.1, ⟨false, some ("获取账户信息失败: " ++ env.account.error)⟩)
  else
    match find_current_account team.account_id env.account.accounts with
    | none =>
      ({ team with status := .error }, ⟨false, some "该 Token 没有关联任何 Team 账户"⟩)
    | some acc =>
      let cm := (if env.members.success then env.members.total else 0)
                + (if env.invites.success then env.invites.total else 0)
      if ¬ env.invites.success then
        let handled := handle_api_error env.members.error_code env.members.error team
        if handled.2 then
          (handled.1, ⟨false, some env.members.error⟩)
        else
          (sync_count_error handled.1,
           ⟨false, some ("获取成员列表失败: " ++ env.members.error)⟩)
      else
        let st := if team.max_members ≤ cm then TStatus.full
                  else if pastExpiry acc.expires_at env.now then TStatus.expired
                  else TStatus.active
        ({ team with account_id := acc.account_id,
                     expires_at := acc.expires_at,
                     current_members := cm,
                     status := st,
                     error_count := 0,
                     last_sync := some env.now },
         ⟨true, none⟩)

/-- `TeamService.sync_team_info` steps 1-2 (`app/services/team.py` lines
620-646): ensure the token (whose side effects on the team persist) and
surface the banned-specific message when it cannot be obtained; with a
token in hand run `sync_after_token`. -/
def sync_team_info (env : SyncEnv) (team : Team) : Team × OpResult :=
  match ensure_access_token env.token team with
  | (team, none) =>
    if team.status = .banned then
      (team, ⟨false, some "Team 账号已封禁/失效 (token_invalidated)"⟩)
    else
      (team, ⟨false, some "Token 已过期且无法刷新"⟩)
  | (team, some _) => sync_after_token env team

/-- `TeamService.add_team_member` (`app/services/team.py` lines
1111-1219), after the Team row has been found: reject `full` and
`expired` teams, refresh the token, send the invite; on success increment
`current_members`, flip to `full` once the count reaches `max_members`,
and reset the error state.  No expiry recheck happens on this path. -/
def add_team_member (tenv : TokenEnv) (invite : CallResult) (team : Team) :
    Team × OpResult :=
  if team.status = .full then
    (team, ⟨false, some "Team 已满,无法添加成员"⟩)
  else if team.status = .expired then
    (team, ⟨false, some "Team 已过期,无法添加成员"⟩)
  else
    let ensured := ensure_access_token tenv team
    match ensured with
    | (team, none) => (team, ⟨false, some "Token 已过期且无法刷新"⟩)
    | (team, some _) =>
      if ¬ invite.success then
        let handled := handle_api_error invite.error_code invite.error team
        if handled.2 then
          (handled.1, ⟨false, some invite.error⟩)
        else
          (handled.1, ⟨false, some ("发送邀请失败: " ++ invite.error)⟩)
      else
        let team := { team with current_members := team.current_members + 1 }
        let team := if team.max_members ≤ team.current_members then
                      { team with status := .full }
                    else team
        (reset_error_status team, ⟨true, none⟩)

/-- Shared decrement logic of `revoke_team_invite` and
`delete_team_member` (`app/services/team.py` lines 1081-1088 and
1289-1296): decrement `current_members` when positive and demote
`full → active` once the count drops below `max_members`. -/
def member_decrement (team : Team) : Team :=
  let team := if 0 < team.current_members then
                { team with current_members := team.current_members - 1 }
              else team
  if team.current_members < team.max_members ∧ team.status = .full then
    { team with status := .active }
  else team

/-- `TeamService.revoke_team_invite` (`app/services/team.py` lines
1013-1109), after the Team row has been found. -/
def revoke_team_invite (tenv : TokenEnv) (revoke : CallResult) (team : Team) :
    Team × OpResult :=
  let ensured := ensure_access_token tenv team
  match ensured with
  | (team, none) => (team, ⟨false, some "Token 已过期且无法刷新"⟩)
  | (team, some _) =>
    if ¬ revoke.success then
      let handled := handle_api_error revoke.error_code revoke.error team
      if handled.2 then
        (handled.1, ⟨false, some revoke.error⟩)
      else
        (handled.1, ⟨false, some ("撤回邀请失败: " ++ revoke.error)⟩)
    else
      (reset_error_status (member_decrement team), ⟨true, none⟩)

/-- `TeamService.delete_team_member` (`app/services/team.py` lines
1221-1318), after the Team row has been found. -/
def delete_team_member (tenv : TokenEnv) (del : CallResult) (team : Team) :
    Team × OpResult :=
  let ensured := ensure_access_token tenv team
  match ensured with
  | (team, none) => (team, ⟨false, some "Token 已过期且无法刷新"⟩)
  | (team, some _) =>
    if ¬ del.success then
      let handled := handle_api_error del.error_code del.error team
      if handled.2 then
        (handled.1, ⟨false, some del.error⟩)
      else
        (handled.1, ⟨false, some ("删除成员失败: " ++ del.error)⟩)
    else
      (reset_error_status (member_decrement team), ⟨true, none⟩)

/-- Optional arguments of the effective `TeamService.update_team`
(`app/services/team.py` lines 1589-1690; this later definition shadows
the earlier one at line 417 in the Python class body).  The
`refresh_token` / `session_token` parameters of the source signature are
never read by the body and are omitted. -/
structure UpdateArgs where
  email : Option String
  account_id : Option String
  access_token : Option String
  max_members : Option Nat
  status : Option TStatus
deriving DecidableEq, Repr

/-- The effective `TeamService.update_team` (`app/services/team.py` lines
1589-1690), after the Team row has been found: apply the provided fields;
a provided `max_members` recomputes only the `active ↔ full` pair; a
provided `status` overwrites the status unconditionally (administrative
override); if `access_token` or `account_id` was provided a
`sync_team_info` is then triggered, whose outcome does not affect the
returned success. -/
def update_team (env : SyncEnv) (a : UpdateArgs) (team : Team) : Team × OpResult :=
  let team := match a.email with
    | some e => { team with email := e }
    | none => team
  let team := match a.account_id with
    | some aid => { team with account_id := aid }
    | none => team
  let team := match a.access_token with
    | some t => { team with access_token := t }
    | none => team
  let team := match a.max_members with
    | some m =>
      let team := { team with max_members := m }
      if m ≤ team.current_members then
        if team.status = .active then { team with status := .full } else team
      else if team.status = .full then { team with status := .active }
      else team
    | none => team
  let team := match a.status with
    | some s => { team with status := s }
    | none => team
  let team := if a.access_token.isSome ∨ a.account_id.isSome then
                (sync_team_info env team).1
              else team
  (team, ⟨true, none⟩)

/-- The `error` field of a parsed 4xx body
(`app/services/chatgpt.py` lines 131-138): absent, present but not a
dictionary, or a dictionary with an optional `code` entry. -/
inductive EField where
  | absent
  | nonDict
  | dict (code : Option String)
deriving DecidableEq, Repr

/-- A JSON body as inspected by `ChatGPTService._make_request`: the
optional `detail` message, the `error` field shape, and the optional
top-level `code` field. -/
structure JsonBody where
  detail : Option String
  errorField : EField
  code : Option String
deriving DecidableEq, Repr

/-- The empty dictionary used when a 2xx body is not JSON
(`app/services/chatgpt.py` line 115). -/
def emptyJsonBody : JsonBody := ⟨none, .absent, none⟩

/-- An upstream HTTP response: status code, the parsed JSON body (`none`
when `response.json()` raises), and the raw text. -/
structure HttpResponse where
  status_code : Nat
  body : Option JsonBody
  text : String
deriving DecidableEq, Repr

/-- Outcome of one network attempt inside `_make_request`: a response, a
timeout (`asyncio.TimeoutError`), or any other exception with its
message. -/
inductive AttemptOutcome where
  | http (resp : HttpResponse)
  | timeout
  | exc (msg : String)
deriving DecidableEq, Repr

/-- The result dictionary of `ChatGPTService._make_request`; `error_code`
is populated only by the 4xx branch (absent keys are `none`). -/
structure MRResult where
  success : Bool
  status_code : Nat
  data : Option JsonBody
  error : Option String
  error_code : Option String
deriving DecidableEq, Repr

/-- `ChatGPTService.MAX_RETRIES` (`app/services/chatgpt.py` line 21). -/
def MAX_RETRIES : Nat := 3

/-- `ChatGPTService.RETRY_DELAYS` (`app/services/chatgpt.py` line 22). -/
def RETRY_DELAYS : List Nat := [1, 2, 4]

/-- The HTTP methods dispatched by `_make_request`
(`app/services/chatgpt.py` lines 98-105); any other method raises
`ValueError` inside the retried `try` block. -/
def methodSupported (m : String) : Bool :=
  m = "GET" || m = "POST" || m = "DELETE"

/-- Outcome of attempt `i`: for a supported method the environment's
outcome; for an unsupported method the `ValueError` raised at line 105,
which the generic `except Exception` handler at line 189 observes. -/
def attempt_outcome (method : String) (env : Nat → AttemptOutcome) (i : Nat) :
    AttemptOutcome :=
  if methodSupported method then env i
  else .exc ("不支持的 HTTP 方法: " ++ method)

/-- 4xx body inspection of `_make_request` (`app/services/chatgpt.py`
lines 125-141): the message is `detail` with the raw text as fallback
(raw text alone when parsing raises); the code comes from `error.code`
when `error` is a dictionary, else from the top-level `code` field. -/
def extract4xx (resp : HttpResponse) : Option String × Option String :=
  match resp.body with
  | some b =>
    let msg := match b.detail with
      | some d => d
      | none => resp.text
    let code := match b.errorField with
      | .dict c => c
      | _ => b.code
    (some msg, code)
  | none => (some resp.text, none)

/-- Retry loop of `ChatGPTService._make_request` (`app/services/chatgpt.py`
lines 93-213).  `fuel` is the number of attempts left
(`MAX_RETRIES - i`); the second component records the backoff sleeps
performed, each drawn from `RETRY_DELAYS` at the attempt index.  A 2xx
ends the loop with the parsed body (empty object when parsing fails); a
4xx ends the loop with the inspected message and code; a 5xx, timeout or
exception sleeps and retries while attempts remain and otherwise yields
the exhaustion result; a response that matches none of the ranges
(1xx/3xx) falls through to the next attempt without sleeping, and
falling out of the loop yields the unreachable-marker result. -/
def make_request_go (method : String) (env : Nat → AttemptOutcome) :
    Nat → Nat → MRResult × List Nat
  | 0, _ => (⟨false, 0, none, some "未知错误", none⟩, [])
  | fuel + 1, i =>
    match attempt_outcome method env i with
    | .http resp =>
      if 200 ≤ resp.status_code ∧ resp.status_code < 300 then
        (⟨true, resp.status_code, some (resp.body.getD emptyJsonBody), none, none⟩, [])
      else if 400 ≤ resp.status_code ∧ resp.status_code < 500 then
        let ex := extract4xx resp
        (⟨false, resp.status_code, none, ex.1, ex.2⟩, [])
      else if 500 ≤ resp.status_code then
        if 1 ≤ fuel then
          let r := make_request_go method env fuel (i + 1)
          (r.1, RETRY_DELAYS.getD i 0 :: r.2)
        else
          (⟨false, resp.status_code, none,
            some ("服务器错误 " ++ toString resp.status_code ++ ",已重试 "
                  ++ toString MAX_RETRIES ++ " 次"), none⟩, [])
      else
        make_request_go method env fuel (i + 1)
    | .timeout =>
      if 1 ≤ fuel then
        let r := make_request_go method env fuel (i + 1)
        (r.1, RETRY_DELAYS.getD i 0 :: r.2)
      else
        (⟨false, 0, none,
          some ("请求超时,已重试 " ++ toString MAX_RETRIES ++ " 次"), none⟩, [])
    | .exc msg =>
      if 1 ≤ fuel then
        let r := make_request_go method env fuel (i + 1)
        (r.1, RETRY_DELAYS.getD i 0 :: r.2)
      else
        (⟨false, 0, none, some ("请求异常: " ++ msg), none⟩, [])

/-- `ChatGPTService._make_request`: run the retry loop from attempt 0
with the full `MAX_RETRIES` budget, also reporting the backoff sleeps. -/
def make_request (method : String) (env : Nat → AttemptOutcome) :
    MRResult × List Nat :=
  make_request_go method env MAX_RETRIES 0

/-- One page result of the member-listing endpoint as consumed by
`ChatGPTService.get_members` (`app/services/chatgpt.py` lines 283-313):
the `success` flag of the underlying `_make_request`, the extracted
`items` and `total` (with Python `.get` defaults), and the error
message.  Members are represented by opaque strings. -/
structure PageResp where
  success : Bool
  items : List String
  total : Nat
  error : Option String
deriving DecidableEq, Repr

/-- The result dictionary of `ChatGPTService.get_members`. -/
structure GMResult where
  success : Bool
  members : List String
  total : Nat
  error : Option String
deriving DecidableEq, Repr

/-- Pagination loop of `ChatGPTService.get_members`
(`app/services/chatgpt.py` lines 279-322), indexed by `fuel` because the
source's `while True` loop has no intrinsic bound: the first unsuccessful
page ends the loop with a failure result; otherwise the page's items are
appended and the loop exits once the accumulated count reaches the
latest page's reported total, else the offset advances by the limit (50)
and the loop repeats.  `none` means the given fuel was exhausted before
the loop exited. -/
def get_members_go (pages : Nat → PageResp) :
    Nat → Nat → List String → Option GMResult
  | 0, _, _ => none
  | fuel + 1, offset, acc =>
    let r := pages offset
    if ¬ r.success then some ⟨false, [], 0, r.error⟩
    else
      let acc := acc ++ r.items
      if r.total ≤ acc.length then some ⟨true, acc, acc.length, none⟩
      else get_members_go pages fuel (offset + 50) acc

/-- `ChatGPTService.get_members` with an explicit fuel bound on the
pagination loop: offset starts at 0 and no member has been accumulated. -/
def get_members_fuel (pages : Nat → PageResp) (fuel : Nat) : Option GMResult :=
  get_members_go pages fuel 0 []

/-- `RedemptionCode.status` values: `unused`, `used`, `expired` per the
column comment in `app/models.py` line 67, plus `warranty_active`, which
`RedemptionService.validate_code` accepts (`app/services/redemption.py`
line 263). -/
inductive CStatus where
  | unused
  | used
  | expired
  | warranty_active
deriving DecidableEq, Repr

/-- The raw string stored in the `status` column, as interpolated into
validation messages. -/
def statusStr : CStatus → String
  | .unused => "unused"
  | .used => "used"
  | .expired => "expired"
  | .warranty_active => "warranty_active"

/-- The `RedemptionCode` row (`app/models.py` lines 61-80 together with
the warranty fields read and written by the services). -/
structure RCode where
  code : String
  status : CStatus
  expires_at : Option Int
  used_by_email : Option String
  used_team_id : Option Nat
  used_at : Option Int
  has_warranty : Bool
  warranty_days : Nat
  warranty_expires_at : Option Int
deriving DecidableEq, Repr

/-- The `RedemptionRecord` row (`app/models.py` lines 83-101). -/
structure RRecord where
  email : String
  code : String
  team_id : Nat
  account_id : String
  redeemed_at : Int
deriving DecidableEq, Repr

/-- The persistent state the redemption engine manipulates: the
`redemption_codes` and `redemption_records` tables. -/
structure RDB where
  codes : List RCode
  records : List RRecord
deriving DecidableEq, Repr

/-- Lookup by the unique `code` column
(`select(RedemptionCode).where(RedemptionCode.code == code)`). -/
def findCode (db : RDB) (code : String) : Option RCode :=
  db.codes.find? (fun c => c.code = code)

/-- Apply an update to the row with the given code (the column is
unique, so at most one row changes). -/
def updateCode (db : RDB) (code : String) (f : RCode → RCode) : RDB :=
  { db with codes := db.codes.map (fun c => if c.code = code then f c else c) }

/-- The result dictionary of `RedemptionService.validate_code`.  In this
model no exception source exists, so `success` is always true. -/
structure ValidateOut where
  success : Bool
  valid : Bool
  reason : Option String
deriving DecidableEq, Repr

/-- `RedemptionService.validate_code` (`app/services/redemption.py` lines
232-311): unknown code is invalid; a status outside
`unused`/`warranty_active` is invalid with a status-specific reason; an
unused code past its `expires_at` is flipped to `expired` (a committed
write) and reported invalid; otherwise the code is valid. -/
def validate_code (db : RDB) (code : String) (now : Int) : RDB × ValidateOut :=
  match findCode db code with
  | none => (db, ⟨true, false, some "兑换码不存在"⟩)
  | some rc =>
    if ¬ (rc.status = .unused ∨ rc.status = .warranty_active) then
      let reason := if rc.status = .used then "兑换码已被使用"
                    else "兑换码已" ++ statusStr rc.status
      (db, ⟨true, false, some reason⟩)
    else if rc.status = .unused ∧ pastExpiry rc.expires_at now then
      (updateCode db code (fun c => { c with status := .expired }),
       ⟨true, false, some "兑换码已超过首次兑换截止时间"⟩)
    else
      (db, ⟨true, true, some "兑换码有效"⟩)

/-- The result dictionary of `RedemptionService.use_code`. -/
structure UseOut where
  success : Bool
  error : Option String
deriving DecidableEq, Repr

/-- `RedemptionService.use_code` (`app/services/redemption.py` lines
313-388): re-run validation (whose invalid outcome is surfaced as the
error and whose expired-flip side effect persists), then set the code to
`used` with the consumer's email / team / timestamp and append one
`RedemptionRecord`; both writes land in the same commit, and the
exception path rolls everything back (no exception source exists in this
model, so the success branch is exactly the two writes). -/
def use_code (db : RDB) (code email : String) (team_id : Nat)
    (account_id : String) (now : Int) : RDB × UseOut :=
  let v := validate_code db code now
  if ¬ v.2.valid then
    (v.1, ⟨false, v.2.reason⟩)
  else
    let db := updateCode v.1 code (fun c =>
      { c with status := .used,
               used_by_email := some email,
               used_team_id := some team_id,
               used_at := some now })
    ({ db with records := db.records ++ [⟨email, code, team_id, account_id, now⟩] },
     ⟨true, none⟩)

/-- The restricted code alphabet of
`RedemptionService._generate_random_code` (`app/services/redemption.py`
lines 37-39): uppercase letters and digits with `0`, `O`, `I`, `1`
removed. -/
def ALPHABET : List Char := "ABCDEFGHJKLMNPQRSTUVWXYZ23456789".data

/-- `RedemptionService._generate_random_code` at the default length 16
(`app/services/redemption.py` lines 27-48): sixteen draws from the
restricted alphabet (the `pick` stream models `secrets.choice`),
formatted as four hyphen-separated groups of four. -/
def generate_random_code (pick : Nat → Nat) : String :=
  let ch := fun i => ALPHABET.getD (pick i % ALPHABET.length) 'A'
  let chars := [ch 0, ch 1, ch 2, ch 3, ch 4, ch 5, ch 6, ch 7,
                ch 8, ch 9, ch 10, ch 11, ch 12, ch 13, ch 14, ch 15]
  ⟨chars.take 4 ++ '-' :: ((chars.drop 4).take 4) ++ '-'
     :: ((chars.drop 8).take 4) ++ '-' :: chars.drop 12⟩

/-- The inner uniqueness loop shared by single and batch generation
(`app/services/redemption.py` lines 74-84 and 181-193): up to the given
number of attempts, draw a code (the `supply` stream gives the picks of
the k-th `_generate_random_code` invocation) and accept it when it is
neither in the current batch nor stored; the second component is the
updated invocation counter. -/
def try_generate (db : RDB) (supply : Nat → Nat → Nat) (batch : List String) :
    Nat → Nat → Option String × Nat
  | 0, k => (none, k)
  | attempts + 1, k =>
    let code := generate_random_code (supply k)
    if code ∉ batch ∧ findCode db code = none then
      (some code, k + 1)
    else
      try_generate db supply batch attempts (k + 1)

/-- A fresh `unused` row as created by the generators
(`app/services/redemption.py` lines 112-118 and 200-206). -/
def mkUnusedCode (code : String) (expires_at : Option Int) (hw : Bool)
    (wd : Nat) : RCode :=
  ⟨code, .unused, expires_at, none, none, none, hw, wd, none⟩

/-- The per-code loop of `RedemptionService.generate_code_batch`
(`app/services/redemption.py` lines 179-196): for each of the `count`
iterations run the 10-attempt uniqueness loop against the stored codes
and the batch built so far; on exhaustion the iteration only logs and
skips (`continue`), producing no code. -/
def batch_loop (db : RDB) (supply : Nat → Nat → Nat) :
    Nat → Nat → List String → List String
  | 0, _, acc => acc
  | i + 1, k, acc =>
    let t := try_generate db supply acc 10 k
    match t.1 with
    | some code => batch_loop db supply i t.2 (acc ++ [code])
    | none => batch_loop db supply i t.2 acc

/-- The result dictionary of `RedemptionService.generate_code_batch`. -/
structure BatchOut where
  success : Bool
  codes : List String
  total : Nat
  error : Option String
deriving DecidableEq, Repr

/-- `RedemptionService.generate_code_batch` (`app/services/redemption.py`
lines 142-230): a count outside 1..1000 is rejected with no state
change; otherwise the generated codes (possibly fewer than `count` when
attempts exhaust) are inserted as `unused` rows and reported as a
success.  `expires_at` stands for the source's
`get_now() + timedelta(days=expires_days)` when provided. -/
def generate_code_batch (db : RDB) (count : Int) (supply : Nat → Nat → Nat)
    (expires_at : Option Int) (has_warranty : Bool) (warranty_days : Nat) :
    RDB × BatchOut :=
  if count ≤ 0 ∨ 1000 < count then
    (db, ⟨false, [], 0, some "生成数量必须在 1-1000 之间"⟩)
  else
    let codes := batch_loop db supply count.toNat 0 []
    ({ db with codes := db.codes
        ++ codes.map (fun c => mkUnusedCode c expires_at has_warranty warranty_days) },
     ⟨true, codes, codes.length, none⟩)

/-- The result dictionary of `RedemptionService.generate_code_single`. -/
structure GenOut where
  success : Bool
  code : Option String
  error : Option String
deriving DecidableEq, Repr

/-- `RedemptionService.generate_code_single` (`app/services/redemption.py`
lines 50-140): an explicitly supplied code is rejected when already
stored; otherwise the 10-attempt uniqueness loop runs, its exhaustion is
an error with no state change, and the accepted code is inserted as an
`unused` row. -/
def generate_code_single (db : RDB) (codeArg : Option String)
    (supply : Nat → Nat → Nat) (expires_at : Option Int) (has_warranty : Bool)
    (warranty_days : Nat) : RDB × GenOut :=
  match codeArg with
  | some code =>
    if (findCode db code).isSome then
      (db, ⟨false, none, some ("兑换码 " ++ code ++ " 已存在")⟩)
    else
      ({ db with codes := db.codes
          ++ [mkUnusedCode code expires_at has_warranty warranty_days] },
       ⟨true, some code, none⟩)
  | none =>
    let t := try_generate db supply [] 10 0
    match t.1 with
    | none => (db, ⟨false, none, some "生成唯一兑换码失败,请重试"⟩)
    | some code =>
      ({ db with codes := db.codes
          ++ [mkUnusedCode code expires_at has_warranty warranty_days] },
       ⟨true, some code, none⟩)

/-- The result dictionary of `WarrantyService.validate_warranty_reuse`. -/
structure WRResult where
  success : Bool
  can_reuse : Bool
  reason : Option String
deriving DecidableEq, Repr

/-- Lookup of a Team row by primary key. -/
def teamById (teams : List Team) (tid : Nat) : Option Team :=
  teams.find? (fun t => t.id = tid)

/-- `WarrantyService.validate_warranty_reuse` (`app/services/warranty.py`
lines 238-356): unknown code, non-warranty code and expired warranty are
not reusable; with no prior record for this (code, email) pair the first
use is allowed; else any historical Team still `active`/`full` and not
past its expiry blocks reuse; else any historical `banned` Team allows
reuse; else reuse is denied. -/
def validate_warranty_reuse (codes : List RCode) (records : List RRecord)
    (teams : List Team) (code email : String) (now : Int) : WRResult :=
  match codes.find? (fun c => c.code = code) with
  | none => ⟨true, false, some "兑换码不存在"⟩
  | some rc =>
    if ¬ rc.has_warranty then
      ⟨true, false, some "该兑换码不是质保兑换码"⟩
    else if pastExpiry rc.warranty_expires_at now then
      ⟨true, false, some "质保已过期"⟩
    else
      let recs := records.filter (fun r => r.code = code ∧ r.email = email)
      if recs.isEmpty then
        ⟨true, true, some "首次使用"⟩
      else if recs.any (fun r =>
          match teamById teams r.team_id with
          | some t => ((t.status = .active ∨ t.status = .full)
                       ∧ ¬ pastExpiry t.expires_at now : Bool)
          | none => false) then
        ⟨true, false, some "您已在有效 Team 中,不可重复兑换"⟩
      else if recs.any (fun r =>
          match teamById teams r.team_id with
          | some t => (t.status = .banned : Bool)
          | none => false) then
        ⟨true, true, some "之前加入的 Team 已封号,可使用质保重复兑换"⟩
      else
        ⟨true, false, some "未找到被封号记录,且质保不支持正常过期或异常提示的重复兑换"⟩

/-! ## Helper lemmas -/

/-- The capacity invariant of the lifecycle state machine: a `full` team
has at least `max_members` members. -/
def capInv (t : Team) : Prop := t.status = .full → t.max_members ≤ t.current_members

theorem handle_false_id (ec : Option String) (e : String) (team : Team)
    (h : (handle_api_error ec e team).2 = false) :
    (handle_api_error ec e team).1 = team := by
  unfold handle_api_error at h ⊢
  dsimp only at h ⊢
  split_ifs at h ⊢ <;> simp_all

theorem capInv_handle (ec : Option String) (e : String) (team : Team)
    (h : capInv team) : capInv (handle_api_error ec e team).1 := by
  unfold handle_api_error
  dsimp only
  unfold capInv at h ⊢
  split_ifs with h1 h2 h3 <;> simp_all

theorem capInv_reset (team : Team) (h : capInv team) :
    capInv (reset_error_status team) := by
  unfold reset_error_status
  dsimp only
  unfold capInv at h ⊢
  split_ifs with h1
  · simp
  · simpa using h

theorem capInv_tail (team : Team) (h : capInv team) :
    capInv (ensure_tail team).1 := by
  unfold ensure_tail
  dsimp only
  unfold capInv at h ⊢
  split_ifs with h1 h2 <;> simp_all

theorem capInv_oauth (env : TokenEnv) (team : Team) (h : capInv team) :
    capInv (ensure_oauth env team).1 := by
  unfold ensure_oauth
  dsimp only
  split_ifs with h1 h2 h3
  · exact capInv_reset _ (by unfold capInv at h ⊢; simp_all)
  · exact capInv_handle _ _ _ h
  · exact capInv_tail _ (capInv_handle _ _ _ h)
  · exact capInv_tail _ h

theorem capInv_ensure (env : TokenEnv) (team : Team) (h : capInv team) :
    capInv (ensure_access_token env team).1 := by
  unfold ensure_access_token
  dsimp only
  split_ifs with h1 h2 h3 h4
  · exact h
  · exact capInv_reset _ (by unfold capInv at h ⊢; simp_all)
  · exact capInv_handle _ _ _ h
  · exact capInv_oauth _ _ (capInv_handle _ _ _ h)
  · exact capInv_oauth _ _ h

theorem reset_preserves_banned (team : Team) (h : team.status = TStatus.banned) :
    (reset_error_status team).status = TStatus.banned := by
  unfold reset_error_status
  dsimp only
  split_ifs <;> simp_all

theorem sync_after_shape (env : SyncEnv) (team : Team)
    (h : (sync_after_token env team).2.success = true) :
    (sync_after_token env team).1.status =
      (if (sync_after_token env team).1.max_members
            ≤ (sync_after_token env team).1.current_members then TStatus.full
       else if pastExpiry (sync_after_token env team).1.expires_at env.now then
         TStatus.expired
       else TStatus.active) := by
  unfold sync_after_token at h ⊢
  dsimp only at h ⊢
  by_cases hA : env.account.success
  · cases hF : find_current_account team.account_id env.account.accounts with
    | none =>
      rw [hF] at h
      simp [hA] at h
    | some acc =>
      rw [hF] at h
      by_cases hI : env.invites.success
      · split_ifs <;> simp_all
      · exfalso
        simp only [hI] at h
        split_ifs at h <;> simp_all
  · exfalso
    simp only [hA] at h
    split_ifs at h <;> simp_all

theorem sync_success_shape (env : SyncEnv) (team : Team)
    (h : (sync_team_info env team).2.success = true) :
    (sync_team_info env team).1.status =
      (if (sync_team_info env team).1.max_members
            ≤ (sync_team_info env team).1.current_members then TStatus.full
       else if pastExpiry (sync_team_info env team).1.expires_at env.now then
         TStatus.expired
       else TStatus.active) := by
  unfold sync_team_info at h ⊢
  cases hE : ensure_access_token env.token team with
  | mk t tok =>
    rw [hE] at h
    cases tok with
    | none =>
      exfalso
      by_cases hb : t.status = TStatus.banned <;> simp [hb] at h
    | some tk =>
      dsimp only at h
      exact sync_after_shape env t h

/-! ## Concrete fixtures -/

/-- A healthy active team used as the base of the concrete scenarios. -/
def baseTeam : Team :=
  { id := 1, email := "admin@x.com", account_id := "acc-1", access_token := "AT",
    has_session_token := false, has_refresh_token := false, client_id := none,
    current_members := 1, max_members := 6, status := .active, error_count := 0,
    expires_at := none, last_sync := none }

/-- A refresh result that is never consulted on the traced paths. -/
def dummyRefresh : RefreshResult := ⟨false, "", none, none, ""⟩

/-- A token environment in which the stored token decrypts and is still
valid, so no refresh happens. -/
def freshTokenEnv : TokenEnv := ⟨true, false, dummyRefresh, dummyRefresh⟩

/-- A banned team whose stored access token still decrypts and has not
expired. -/
def c1Team : Team := { baseTeam with status := .banned }

/-- A sync environment in which every upstream call succeeds: the account
matching `acc-1` is active with no expiry, one member and no pending
invite. -/
def c1Env : SyncEnv :=
  { token := freshTokenEnv,
    account := ⟨true, [⟨"acc-1", "Team A", "team", "chatgpt_team_plan", none, true⟩], none, ""⟩,
    members := ⟨true, 1, none, ""⟩,
    invites := ⟨true, 0, none, ""⟩,
    now := 100 }

/-! ## C1 -/

/-- C1 counterexample: a Team whose status is `banned` but whose token
still works is successfully synced by `sync_team_info`, and the sync
recomputation moves its status back to `active` — so a later successful
operation of the core does change the status away from `banned` without
any administrative override, contradicting the claim. -/
theorem c1_banned_counterexample :
    c1Team.status = TStatus.banned ∧
    (sync_team_info c1Env c1Team).2.success = true ∧
    (sync_team_info c1Env c1Team).1.status = TStatus.active := by decide

/-- C1 (amended): an accountBanned-classified API failure immediately
sets `status = banned` regardless of the prior `errorCount`, and the
success-path error reset (`_reset_error_status`) never moves a Team out
of `banned`; however a successful `sync_team_info` unconditionally
recomputes the status to `full`/`expired`/`active`, so a banned Team
whose credentials still work upstream is moved away from `banned` by a
successful sync. -/
theorem c1_banned_amended :
    (∀ (ec : Option String) (e : String) (team : Team),
        classifiedBanned ec e = true →
        (handle_api_error ec e team).1.status = TStatus.banned ∧
        (handle_api_error ec e team).2 = true) ∧
    (∀ team : Team, team.status = TStatus.banned →
        (reset_error_status team).status = TStatus.banned) ∧
    (∀ (env : SyncEnv) (team : Team),
        (sync_team_info env team).2.success = true →
        (sync_team_info env team).1.status ≠ TStatus.banned) := by
  refine ⟨?_, ?_, ?_⟩
  · intro ec e team h
    unfold handle_api_error
    simp [h]
  · intro team h
    exact reset_preserves_banned team h
  · intro env team h
    have hs := sync_success_shape env team h
    rw [hs]
    split_ifs <;> simp

/-- C1 witness: the amended statement evaluated at concrete inputs — an
`account_deactivated` failure bans the base team, the error reset keeps
`c1Team` banned, and the successful sync of the banned `c1Team` ends with
a status other than `banned`. -/
theorem c1_banned_witness :
    ((handle_api_error (some "account_deactivated") "x" baseTeam).1.status = TStatus.banned ∧
      (handle_api_error (some "account_deactivated") "x" baseTeam).2 = true) ∧
    (reset_error_status c1Team).status = TStatus.banned ∧
    (sync_team_info c1Env c1Team).1.status ≠ TStatus.banned :=
  ⟨c1_banned_amended.1 (some "account_deactivated") "x" baseTeam (by decide),
   c1_banned_amended.2.1 c1Team (by decide),
   c1_banned_amended.2.2 c1Env c1Team (by decide)⟩

/-! ## C2 -/

/-- A team holding all three credential kinds. -/
def c2Team : Team :=
  { baseTeam with has_session_token := true, has_refresh_token := true,
                  client_id := some "cid" }

/-- A session-refresh failure classified as grant-invalid. -/
def grantFailRefresh : RefreshResult :=
  ⟨false, "", none, some "invalid_grant", "invalid_grant"⟩

/-- An OAuth refresh that would succeed if it were attempted. -/
def oauthOkRefresh : RefreshResult := ⟨true, "NEW-AT", none, none, ""⟩

/-- A token environment with an expired stored token, a failing
grant-invalid session refresh, and a succeeding OAuth refresh. -/
def c2Env : TokenEnv := ⟨true, true, grantFailRefresh, oauthOkRefresh⟩

/-- C2 counterexample: the session refresh fails with a grantInvalid (not
accountBanned) classification, `refreshToken` and `clientId` are both
present and the OAuth refresh would succeed, yet `ensure_access_token`
returns null — the orchestrator does not proceed to the OAuth path,
contradicting the claim. -/
theorem c2_grant_counterexample :
    c2Team.has_refresh_token = true ∧
    c2Team.client_id.isSome = true ∧
    c2Env.session_refresh.success = false ∧
    classifiedGrantInvalid c2Env.session_refresh.error_code c2Env.session_refresh.error = true ∧
    classifiedBanned c2Env.session_refresh.error_code c2Env.session_refresh.error = false ∧
    c2Env.oauth_refresh.success = true ∧
    (ensure_access_token c2Env c2Team).2 = none := by decide

/-- C2 (amended): a grantInvalid classification of the failed
session-token refresh also terminates the refresh sequence early —
`errorCount` is incremented (with `status = error` once it reaches 3) and
the orchestrator returns null immediately, never attempting the OAuth
refresh-token path (the conclusion holds for every `oauth_refresh`
environment, succeeding ones included); only a failure classifying as
neither accountBanned nor grantInvalid falls through to the OAuth
path. -/
theorem c2_grant_amended (env : TokenEnv) (team : Team)
    (hexp : env.token_expired = true)
    (hst : team.has_session_token = true)
    (hfail : env.session_refresh.success = false)
    (hnb : classifiedBanned env.session_refresh.error_code env.session_refresh.error = false)
    (hgi : classifiedGrantInvalid env.session_refresh.error_code env.session_refresh.error = true) :
    (ensure_access_token env team).2 = none ∧
    (ensure_access_token env team).1.error_count = team.error_count + 1 ∧
    (ensure_access_token env team).1.status =
      (if 3 ≤ team.error_count + 1 then TStatus.error else team.status) := by
  unfold ensure_access_token handle_api_error
  simp [hexp, hst, hfail, hnb, hgi]

/-- C2 witness: the amended statement evaluated at the concrete
environment whose OAuth refresh would succeed. -/
theorem c2_grant_witness :
    (ensure_access_token c2Env c2Team).2 = none ∧
    (ensure_access_token c2Env c2Team).1.error_count = c2Team.error_count + 1 ∧
    (ensure_access_token c2Env c2Team).1.status =
      (if 3 ≤ c2Team.error_count + 1 then TStatus.error else c2Team.status) :=
  c2_grant_amended c2Env c2Team (by decide) (by decide) (by decide) (by decide) (by decide)

/-! ## C3 helpers -/

theorem capInv_count_error (team : Team) (h : capInv team) :
    capInv (sync_count_error team) := by
  unfold sync_count_error
  dsimp only
  unfold capInv at h ⊢
  split_ifs <;> simp_all

theorem capInv_sync_after (env : SyncEnv) (team : Team) (h : capInv team) :
    capInv (sync_after_token env team).1 := by
  unfold sync_after_token
  dsimp only
  cases hA : env.account.success with
  | false =>
    rw [if_pos (by simp [hA])]
    split_ifs with hh
    · exact capInv_handle _ _ _ h
    · exact capInv_count_error _ (capInv_handle _ _ _ h)
  | true =>
    rw [if_neg (by simp [hA])]
    cases hF : find_current_account team.account_id env.account.accounts with
    | none =>
      dsimp only
      unfold capInv
      intro hst
      simp at hst
    | some acc =>
      dsimp only
      cases hI : env.invites.success with
      | false =>
        rw [if_pos (by decide)]
        split_ifs with hh
        · exact capInv_handle _ _ _ h
        · exact capInv_count_error _ (capInv_handle _ _ _ h)
      | true =>
        rw [if_neg (by decide)]
        unfold capInv
        intro hst
        dsimp only at hst ⊢
        split_ifs at hst <;> simp_all

theorem capInv_sync (env : SyncEnv) (team : Team) (h : capInv team) :
    capInv (sync_team_info env team).1 := by
  unfold sync_team_info
  cases hE : ensure_access_token env.token team with
  | mk t tok =>
    have ht : capInv t := by
      have := capInv_ensure env.token team h
      rw [hE] at this
      exact this
    cases tok with
    | none =>
      dsimp only
      split_ifs <;> exact ht
    | some tk => exact capInv_sync_after env t ht

theorem capInv_member_decrement (team : Team) : capInv (member_decrement team) := by
  unfold member_decrement
  dsimp only
  unfold capInv
  split_ifs <;> intro hst <;> simp_all <;> omega

theorem capInv_add (tenv : TokenEnv) (invite : CallResult) (team : Team)
    (h : capInv team) : capInv (add_team_member tenv invite team).1 := by
  unfold add_team_member
  dsimp only
  by_cases h1 : team.status = TStatus.full
  · rw [if_pos h1]; exact h
  · rw [if_neg h1]
    by_cases h2 : team.status = TStatus.expired
    · rw [if_pos h2]; exact h
    · rw [if_neg h2]
      cases hE : ensure_access_token tenv team with
      | mk t tok =>
        have ht : capInv t := by
          have := capInv_ensure tenv team h
          rw [hE] at this
          exact this
        cases tok with
        | none => exact ht
        | some tk =>
          dsimp only
          cases hv : invite.success with
          | false =>
            rw [if_pos (by decide)]
            split_ifs with hh
            · exact capInv_handle _ _ _ ht
            · exact capInv_handle _ _ _ ht
          | true =>
            rw [if_neg (by decide)]
            dsimp only
            refine capInv_reset _ ?_
            unfold capInv at ht ⊢
            split_ifs with hc <;> intro hst <;> simp_all <;> omega

theorem capInv_revoke (tenv : TokenEnv) (call : CallResult) (team : Team)
    (h : capInv team) : capInv (revoke_team_invite tenv call team).1 := by
  unfold revoke_team_invite
  dsimp only
  cases hE : ensure_access_token tenv team with
  | mk t tok =>
    have ht : capInv t := by
      have := capInv_ensure tenv team h
      rw [hE] at this
      exact this
    cases tok with
    | none => exact ht
    | some tk =>
      dsimp only
      cases hv : call.success with
      | false =>
        rw [if_pos (by decide)]
        split_ifs with hh
        · exact capInv_handle _ _ _ ht
        · exact capInv_handle _ _ _ ht
      | true =>
        rw [if_neg (by decide)]
        exact capInv_reset _ (capInv_member_decrement t)

theorem capInv_delete (tenv : TokenEnv) (call : CallResult) (team : Team)
    (h : capInv team) : capInv (delete_team_member tenv call team).1 := by
  unfold delete_team_member
  dsimp only
  cases hE : ensure_access_token tenv team with
  | mk t tok =>
    have ht : capInv t := by
      have := capInv_ensure tenv team h
      rw [hE] at this
      exact this
    cases tok with
    | none => exact ht
    | some tk =>
      dsimp only
      cases hv : call.success with
      | false =>
        rw [if_pos (by decide)]
        split_ifs with hh
        · exact capInv_handle _ _ _ ht
        · exact capInv_handle _ _ _ ht
      | true =>
        rw [if_neg (by decide)]
        exact capInv_reset _ (capInv_member_decrement t)

theorem tail_none (team : Team) : (ensure_tail team).2 = none := by
  unfold ensure_tail
  dsimp only
  split_ifs <;> rfl

theorem reset_fields (team : Team) :
    (reset_error_status team).current_members = team.current_members ∧
    (reset_error_status team).max_members = team.max_members ∧
    ((reset_error_status team).status = team.status ∨
      ((reset_error_status team).status = TStatus.active ∧ team.status = TStatus.error)) := by
  unfold reset_error_status
  dsimp only
  split_ifs <;> simp_all

theorem oauth_some_active (env : TokenEnv) (team : Team)
    (hA : team.status = TStatus.active)
    (h : ((ensure_oauth env team).2).isSome = true) :
    (ensure_oauth env team).1.status = TStatus.active ∧
    (ensure_oauth env team).1.current_members = team.current_members ∧
    (ensure_oauth env team).1.max_members = team.max_members := by
  unfold ensure_oauth at h ⊢
  dsimp only at h ⊢
  split_ifs at h ⊢ with h1 h2 h3
  · rcases reset_fields { team with access_token := env.oauth_refresh.access_token } with
      ⟨hc, hm, hs⟩
    refine ⟨?_, hc, hm⟩
    rcases hs with hs | ⟨_, hs⟩
    · rw [hs]; exact hA
    · rw [hs] at hA; cases hA
  · simp at h
  · rw [tail_none] at h; simp at h
  · rw [tail_none] at h; simp at h

theorem ensure_some_active (env : TokenEnv) (team : Team)
    (hA : team.status = TStatus.active)
    (h : ((ensure_access_token env team).2).isSome = true) :
    (ensure_access_token env team).1.status = TStatus.active ∧
    (ensure_access_token env team).1.current_members = team.current_members ∧
    (ensure_access_token env team).1.max_members = team.max_members := by
  unfold ensure_access_token at h ⊢
  dsimp only at h ⊢
  split_ifs at h ⊢ with h1 h2 h3 h4
  · exact ⟨hA, rfl, rfl⟩
  · rcases reset_fields { team with access_token := env.session_refresh.access_token } with
      ⟨hc, hm, hs⟩
    refine ⟨?_, hc, hm⟩
    rcases hs with hs | ⟨_, hs⟩
    · rw [hs]; exact hA
    · rw [hs] at hA; cases hA
  · simp at h
  · have hid := handle_false_id env.session_refresh.error_code env.session_refresh.error team
      (by simpa using h4)
    rw [hid] at h ⊢
    exact oauth_some_active env team hA h
  · exact oauth_some_active env team hA h

theorem add_success_status (tenv : TokenEnv) (invite : CallResult) (team : Team)
    (hA : team.status = TStatus.active)
    (h : (add_team_member tenv invite team).2.success = true) :
    (add_team_member tenv invite team).1.status =
      (if (add_team_member tenv invite team).1.max_members
            ≤ (add_team_member tenv invite team).1.current_members then TStatus.full
       else TStatus.active) ∧
    (add_team_member tenv invite team).1.current_members = team.current_members + 1 := by
  unfold add_team_member at h ⊢
  dsimp only at h ⊢
  rw [if_neg (by simp [hA]), if_neg (by simp [hA])] at h ⊢
  cases hE : ensure_access_token tenv team with
  | mk t tok =>
    rw [hE] at h
    cases tok with
    | none => simp at h
    | some tk =>
      have hsome : ((ensure_access_token tenv team).2).isSome = true := by
        rw [hE]; rfl
      rcases ensure_some_active tenv team hA hsome with ⟨hts, htc, htm⟩
      rw [hE] at hts htc htm
      dsimp only at h hts htc htm ⊢
      cases hv : invite.success with
      | false =>
        rw [hv] at h
        rw [if_pos (by decide)] at h
        split_ifs at h <;> simp_all
      | true =>
        rw [hv] at h
        rw [if_neg (by decide)] at h ⊢
        dsimp only at h ⊢
        rcases reset_fields (if t.max_members ≤ t.current_members + 1 then
            { t with current_members := t.current_members + 1, status := TStatus.full }
          else { t with current_members := t.current_members + 1 }) with ⟨hc, hm, hs⟩
        by_cases hfull : t.max_members ≤ t.current_members + 1
        · rw [if_pos hfull] at hc hm hs ⊢
          rcases hs with hs | ⟨_, hs⟩ <;> simp_all
        · rw [if_neg hfull] at hc hm hs ⊢
          rcases hs with hs | ⟨_, hs⟩ <;> (try simp_all) <;> rw [if_neg (by omega)]

/-! ## C3 -/

/-- An active team with a past subscription expiry and a free seat. -/
def c3Team : Team := { baseTeam with current_members := 0, expires_at := some 50 }

/-- A successful upstream call result. -/
def okCall : CallResult := ⟨true, none, ""⟩

/-- C3 counterexample: `add_team_member` succeeds at time 100 on an
active team whose `expiresAt` (50) is already in the past and whose seat
count stays below `maxMembers`; the claim requires the resulting status
to be recomputed to `expired`, but the code leaves it `active` — the add
path never rechecks the expiry. -/
theorem c3_recompute_counterexample :
    (add_team_member freshTokenEnv okCall c3Team).2.success = true ∧
    c3Team.status = TStatus.active ∧
    (add_team_member freshTokenEnv okCall c3Team).1.status ≠
      (if (add_team_member freshTokenEnv okCall c3Team).1.max_members
            ≤ (add_team_member freshTokenEnv okCall c3Team).1.current_members then
         TStatus.full
       else if pastExpiry (add_team_member freshTokenEnv okCall c3Team).1.expires_at 100 then
         TStatus.expired
       else TStatus.active) := by decide

/-- C3 (amended): the capacity invariant (`full` implies
`currentMembers ≥ maxMembers`) is preserved by add member, revoke
invite, delete member and sync; a successful `sync_team_info` recomputes
the status exactly as `full` / `expired` / `active`; but a successful
`add_team_member` on an active team recomputes only the `active → full`
half — it sets `full` when the incremented count reaches `maxMembers`
and otherwise leaves the status `active`, without the `expired`
recomputation the claim describes. -/
theorem c3_full_amended :
    (∀ (tenv : TokenEnv) (invite : CallResult) (team : Team),
        capInv team → capInv (add_team_member tenv invite team).1) ∧
    (∀ (tenv : TokenEnv) (call : CallResult) (team : Team),
        capInv team → capInv (revoke_team_invite tenv call team).1) ∧
    (∀ (tenv : TokenEnv) (call : CallResult) (team : Team),
        capInv team → capInv (delete_team_member tenv call team).1) ∧
    (∀ (env : SyncEnv) (team : Team),
        capInv team → capInv (sync_team_info env team).1) ∧
    (∀ (env : SyncEnv) (team : Team),
        (sync_team_info env team).2.success = true →
        (sync_team_info env team).1.status =
          (if (sync_team_info env team).1.max_members
                ≤ (sync_team_info env team).1.current_members then TStatus.full
           else if pastExpiry (sync_team_info env team).1.expires_at env.now then
             TStatus.expired
           else TStatus.active)) ∧
    (∀ (tenv : TokenEnv) (invite : CallResult) (team : Team),
        team.status = TStatus.active →
        (add_team_member tenv invite team).2.success = true →
        (add_team_member tenv invite team).1.status =
          (if (add_team_member tenv invite team).1.max_members
                ≤ (add_team_member tenv invite team).1.current_members then TStatus.full
           else TStatus.active)) :=
  ⟨capInv_add, capInv_revoke, capInv_delete, capInv_sync, sync_success_shape,
   fun tenv invite team hA h => (add_success_status tenv invite team hA h).1⟩

/-- C3 witness: the amended statement evaluated at concrete inputs — the
capacity invariant after each operation on concrete teams, the sync
recomputation on the all-success environment, and the add-member
recomputation on the active team with a free seat. -/
theorem c3_full_witness :
    capInv (add_team_member freshTokenEnv okCall c3Team).1 ∧
    capInv (revoke_team_invite freshTokenEnv okCall baseTeam).1 ∧
    capInv (delete_team_member freshTokenEnv okCall baseTeam).1 ∧
    capInv (sync_team_info c1Env baseTeam).1 ∧
    (sync_team_info c1Env baseTeam).1.status =
      (if (sync_team_info c1Env baseTeam).1.max_members
            ≤ (sync_team_info c1Env baseTeam).1.current_members then TStatus.full
       else if pastExpiry (sync_team_info c1Env baseTeam).1.expires_at c1Env.now then
         TStatus.expired
       else TStatus.active) ∧
    (add_team_member freshTokenEnv okCall c3Team).1.status =
      (if (add_team_member freshTokenEnv okCall c3Team).1.max_members
            ≤ (add_team_member freshTokenEnv okCall c3Team).1.current_members then
         TStatus.full
       else TStatus.active) :=
  ⟨c3_full_amended.1 freshTokenEnv okCall c3Team (by intro hst; exact absurd hst (by decide)),
   c3_full_amended.2.1 freshTokenEnv okCall baseTeam (by intro hst; exact absurd hst (by decide)),
   c3_full_amended.2.2.1 freshTokenEnv okCall baseTeam (by intro hst; exact absurd hst (by decide)),
   c3_full_amended.2.2.2.1 c1Env baseTeam (by intro hst; exact absurd hst (by decide)),
   c3_full_amended.2.2.2.2.1 c1Env baseTeam (by decide),
   c3_full_amended.2.2.2.2.2 freshTokenEnv okCall c3Team (by decide) (by decide)⟩

/-! ## C4 -/

theorem find_update_list (l : List RCode) (code : String) (f : RCode → RCode)
    (hf : ∀ c, (f c).code = c.code) :
    (l.map (fun c => if c.code = code then f c else c)).find? (fun c => c.code = code)
      = (l.find? (fun c => c.code = code)).map f := by
  induction l with
  | nil => rfl
  | cons c cs ih =>
    by_cases hc : c.code = code <;> simp [List.find?, hc, hf, ih]

/-- C4 (confirmed): on a code stored as `unused` and not past its
`expires_at`, `use_code` succeeds exactly once — the stored row becomes
`used` with the consumer's email, team and timestamp recorded and exactly
one `RedemptionRecord` appended (both writes landing together in the
model's single success result, the image of the one-commit transaction);
a second `use_code` on the same code fails with the
no-longer-unused reason (`兑换码已被使用`), appends no record and leaves
the whole stored state unchanged. -/
theorem c4_use_code_once (db : RDB) (code email : String) (tid : Nat) (aid : String)
    (now : Int) (email2 : String) (tid2 : Nat) (aid2 : String) (now2 : Int) (rc : RCode)
    (hfind : findCode db code = some rc)
    (hst : rc.status = CStatus.unused)
    (hexp : pastExpiry rc.expires_at now = false) :
    (use_code db code email tid aid now).2.success = true ∧
    findCode (use_code db code email tid aid now).1 code =
      some { rc with status := .used, used_by_email := some email,
                     used_team_id := some tid, used_at := some now } ∧
    (use_code db code email tid aid now).1.records =
      db.records ++ [⟨email, code, tid, aid, now⟩] ∧
    (use_code (use_code db code email tid aid now).1 code email2 tid2 aid2 now2).2.success
      = false ∧
    (use_code (use_code db code email tid aid now).1 code email2 tid2 aid2 now2).2.error
      = some "兑换码已被使用" ∧
    (use_code (use_code db code email tid aid now).1 code email2 tid2 aid2 now2).1
      = (use_code db code email tid aid now).1 := by
  have hv : validate_code db code now = (db, ⟨true, true, some "兑换码有效"⟩) := by
    unfold validate_code
    rw [hfind]
    dsimp only
    rw [if_neg (by simp [hst]), if_neg (by simp [hexp])]
  have hu : use_code db code email tid aid now =
      ({ codes := db.codes.map (fun c => if c.code = code then
            { c with status := .used, used_by_email := some email,
                     used_team_id := some tid, used_at := some now } else c),
         records := db.records ++ [⟨email, code, tid, aid, now⟩] }, ⟨true, none⟩) := by
    unfold use_code
    rw [hv]
    exact rfl
  have hfind2 : findCode (use_code db code email tid aid now).1 code =
      some { rc with status := .used, used_by_email := some email,
                     used_team_id := some tid, used_at := some now } := by
    rw [hu]
    unfold findCode
    dsimp only
    rw [find_update_list db.codes code
      (fun c => { c with status := .used, used_by_email := some email,
                         used_team_id := some tid, used_at := some now })
      (fun c => rfl)]
    unfold findCode at hfind
    rw [hfind]
    rfl
  have hv2 : validate_code (use_code db code email tid aid now).1 code now2 =
      ((use_code db code email tid aid now).1, ⟨true, false, some "兑换码已被使用"⟩) := by
    unfold validate_code
    rw [hfind2]
    exact rfl
  have hu2gen : ∀ db1 : RDB,
      validate_code db1 code now2 = (db1, ⟨true, false, some "兑换码已被使用"⟩) →
      use_code db1 code email2 tid2 aid2 now2 = (db1, ⟨false, some "兑换码已被使用"⟩) := by
    intro db1 hval
    unfold use_code
    rw [hval]
    exact rfl
  have hu2 := hu2gen (use_code db code email tid aid now).1 hv2
  refine ⟨?_, hfind2, ?_, ?_, ?_, ?_⟩
  · rw [hu]
  · rw [hu]
  · rw [hu2]
  · rw [hu2]
  · rw [hu2]

/-- A one-code state for the C4 witness. -/
def c4db : RDB := ⟨[mkUnusedCode "AAAA-BBBB-CCCC-DDDD" none false 30], []⟩

/-- C4 witness: the theorem evaluated at the concrete one-code state. -/
theorem c4_use_code_witness :
    (use_code c4db "AAAA-BBBB-CCCC-DDDD" "u@x.com" 1 "acc-1" 10).2.success = true ∧
    findCode (use_code c4db "AAAA-BBBB-CCCC-DDDD" "u@x.com" 1 "acc-1" 10).1
        "AAAA-BBBB-CCCC-DDDD" =
      some { mkUnusedCode "AAAA-BBBB-CCCC-DDDD" none false 30 with
             status := .used, used_by_email := some "u@x.com",
             used_team_id := some 1, used_at := some 10 } ∧
    (use_code c4db "AAAA-BBBB-CCCC-DDDD" "u@x.com" 1 "acc-1" 10).1.records =
      c4db.records ++ [⟨"u@x.com", "AAAA-BBBB-CCCC-DDDD", 1, "acc-1", 10⟩] ∧
    (use_code (use_code c4db "AAAA-BBBB-CCCC-DDDD" "u@x.com" 1 "acc-1" 10).1
        "AAAA-BBBB-CCCC-DDDD" "v@y.com" 2 "acc-2" 20).2.success = false ∧
    (use_code (use_code c4db "AAAA-BBBB-CCCC-DDDD" "u@x.com" 1 "acc-1" 10).1
        "AAAA-BBBB-CCCC-DDDD" "v@y.com" 2 "acc-2" 20).2.error = some "兑换码已被使用" ∧
    (use_code (use_code c4db "AAAA-BBBB-CCCC-DDDD" "u@x.com" 1 "acc-1" 10).1
        "AAAA-BBBB-CCCC-DDDD" "v@y.com" 2 "acc-2" 20).1 =
      (use_code c4db "AAAA-BBBB-CCCC-DDDD" "u@x.com" 1 "acc-1" 10).1 :=
  c4_use_code_once c4db "AAAA-BBBB-CCCC-DDDD" "u@x.com" 1 "acc-1" 10 "v@y.com" 2 "acc-2" 20
    (mkUnusedCode "AAAA-BBBB-CCCC-DDDD" none false 30) (by rfl) (by rfl) (by rfl)

/-! ## C5 -/

/-- C5 spec-side reuse decision, written from the claim's words (not from
the source): `can_reuse` is false when the code is unknown, lacks
`hasWarranty`, or its `warrantyExpiresAt` is in the past; true when no
prior RedemptionRecord exists for this (code, email) pair; otherwise
false if any historically joined Team is currently active/full and not
past its `expiresAt`, true if any historically joined Team is banned, and
false in every remaining case. -/
def canReuseSpec (codes : List RCode) (records : List RRecord) (teams : List Team)
    (code email : String) (now : Int) : Bool :=
  match codes.find? (fun c => c.code = code) with
  | none => false
  | some rc =>
    if ¬ rc.has_warranty then false
    else if pastExpiry rc.warranty_expires_at now then false
    else
      let hist := records.filter (fun r => r.code = code ∧ r.email = email)
      if hist.isEmpty then true
      else if hist.any (fun r =>
          match teamById teams r.team_id with
          | some t => ((t.status = .active ∨ t.status = .full)
                       ∧ ¬ pastExpiry t.expires_at now : Bool)
          | none => false) then false
      else if hist.any (fun r =>
          match teamById teams r.team_id with
          | some t => (t.status = .banned : Bool)
          | none => false) then true
      else false

/-- C5 (confirmed): `validate_warranty_reuse` always reports success and
its `can_reuse` decision coincides, for every state and input, with the
claim's case analysis (`canReuseSpec`): unknown / non-warranty / expired
warranty → false; first use → true; a still-active seat → false; a banned
historical Team → true; everything else (a merely expired Team included)
→ false. -/
theorem c5_warranty_reuse (codes : List RCode) (records : List RRecord)
    (teams : List Team) (code email : String) (now : Int) :
    (validate_warranty_reuse codes records teams code email now).success = true ∧
    (validate_warranty_reuse codes records teams code email now).can_reuse =
      canReuseSpec codes records teams code email now := by
  unfold validate_warranty_reuse canReuseSpec
  cases hF : codes.find? (fun c => c.code = code) with
  | none => exact ⟨rfl, rfl⟩
  | some rc =>
    dsimp only
    split_ifs <;> exact ⟨rfl, rfl⟩

/-! ## C9 helpers -/

theorem mem_updateCode (db : RDB) (code : String) (f : RCode → RCode) (c : RCode)
    (h : c ∈ (updateCode db code f).codes) :
    c ∈ db.codes ∨ ∃ c0 ∈ db.codes, c = f c0 := by
  unfold updateCode at h
  dsimp only at h
  rcases List.mem_map.mp h with ⟨c0, hc0, hval⟩
  by_cases hcc : c0.code = code
  · right
    exact ⟨c0, hc0, by rw [← hval, if_pos hcc]⟩
  · left
    rw [← hval, if_neg hcc]
    exact hc0

theorem mem_validate (db : RDB) (code : String) (now : Int) (c : RCode)
    (hc : c ∈ (validate_code db code now).1.codes) :
    c ∈ db.codes ∨ c.status = CStatus.expired := by
  unfold validate_code at hc
  cases hF : findCode db code with
  | none => rw [hF] at hc; exact Or.inl hc
  | some rc =>
    rw [hF] at hc
    dsimp only at hc
    by_cases h1 : ¬ (rc.status = CStatus.unused ∨ rc.status = CStatus.warranty_active)
    · rw [if_pos h1] at hc
      exact Or.inl hc
    · rw [if_neg h1] at hc
      by_cases h2 : rc.status = CStatus.unused ∧ pastExpiry rc.expires_at now = true
      · rw [if_pos h2] at hc
        rcases mem_updateCode db code (fun c => { c with status := CStatus.expired })
            c hc with h | ⟨c0, _, hceq⟩
        · exact Or.inl h
        · exact Or.inr (by rw [hceq])
      · rw [if_neg h2] at hc
        exact Or.inl hc

theorem mem_use (db : RDB) (code email : String) (tid : Nat) (aid : String)
    (now : Int) (c : RCode) (hc : c ∈ (use_code db code email tid aid now).1.codes) :
    c ∈ db.codes ∨ c.status = CStatus.expired ∨ c.status = CStatus.used := by
  unfold use_code at hc
  dsimp only at hc
  by_cases h1 : ¬ (validate_code db code now).2.valid = true
  · rw [if_pos h1] at hc
    rcases mem_validate db code now c hc with h | h
    · exact Or.inl h
    · exact Or.inr (Or.inl h)
  · rw [if_neg h1] at hc
    dsimp only at hc
    rcases mem_updateCode (validate_code db code now).1 code
        (fun c => { c with status := .used, used_by_email := some email,
                           used_team_id := some tid, used_at := some now })
        c hc with h | ⟨c0, _, hceq⟩
    · rcases mem_validate db code now c h with h2 | h2
      · exact Or.inl h2
      · exact Or.inr (Or.inl h2)
    · exact Or.inr (Or.inr (by rw [hceq]))

theorem mem_single (db : RDB) (ca : Option String) (supply : Nat → Nat → Nat)
    (ea : Option Int) (hw : Bool) (wd : Nat) (c : RCode)
    (hc : c ∈ (generate_code_single db ca supply ea hw wd).1.codes) :
    c ∈ db.codes ∨ c.status = CStatus.unused := by
  unfold generate_code_single at hc
  cases ca with
  | some code0 =>
    dsimp only at hc
    split_ifs at hc with h1
    · exact Or.inl hc
    · rcases List.mem_append.mp hc with h | h
      · exact Or.inl h
      · simp at h
        exact Or.inr (by rw [h]; rfl)
  | none =>
    dsimp only at hc
    cases ht : (try_generate db supply [] 10 0).1 with
    | none => rw [ht] at hc; exact Or.inl hc
    | some code0 =>
      rw [ht] at hc
      dsimp only at hc
      rcases List.mem_append.mp hc with h | h
      · exact Or.inl h
      · simp at h
        exact Or.inr (by rw [h]; rfl)

theorem mem_batch (db : RDB) (cnt : Int) (supply : Nat → Nat → Nat)
    (ea : Option Int) (hw : Bool) (wd : Nat) (c : RCode)
    (hc : c ∈ (generate_code_batch db cnt supply ea hw wd).1.codes) :
    c ∈ db.codes ∨ c.status = CStatus.unused := by
  unfold generate_code_batch at hc
  split_ifs at hc with h1
  · exact Or.inl hc
  · dsimp only at hc
    rcases List.mem_append.mp hc with h | h
    · exact Or.inl h
    · rcases List.mem_map.mp h with ⟨s, _, rfl⟩
      exact Or.inr rfl

theorem validate_valid_shape (db : RDB) (code : String) (now : Int)
    (h : (validate_code db code now).2.valid = true) :
    (validate_code db code now).1 = db ∧
    ∃ rc, findCode db code = some rc ∧
      (rc.status = CStatus.unused ∨ rc.status = CStatus.warranty_active) := by
  unfold validate_code at h ⊢
  cases hF : findCode db code with
  | none => rw [hF] at h; simp at h
  | some rc =>
    rw [hF] at h
    dsimp only at h ⊢
    by_cases h1 : ¬ (rc.status = CStatus.unused ∨ rc.status = CStatus.warranty_active)
    · rw [if_pos h1] at h
      exact absurd h (by simp)
    · rw [if_neg h1] at h ⊢
      by_cases h2 : rc.status = CStatus.unused ∧ pastExpiry rc.expires_at now = true
      · rw [if_pos h2] at h
        exact absurd h (by simp)
      · rw [if_neg h2] at h ⊢
        exact ⟨rfl, rc, rfl, by tauto⟩

theorem use_success_valid (db : RDB) (code email : String) (tid : Nat) (aid : String)
    (now : Int) (h : (use_code db code email tid aid now).2.success = true) :
    (validate_code db code now).2.valid = true := by
  by_contra hval
  unfold use_code at h
  dsimp only at h
  rw [if_pos hval] at h
  simp at h

theorem use_success_find (db : RDB) (code email : String) (tid : Nat) (aid : String)
    (now : Int) (hval : (validate_code db code now).2.valid = true) :
    Option.map (fun c => c.status) (findCode (use_code db code email tid aid now).1 code)
      = some CStatus.used := by
  obtain ⟨hdb, rc, hfind, _⟩ := validate_valid_shape db code now hval
  have hu : (use_code db code email tid aid now).1 =
      { codes := db.codes.map (fun c => if c.code = code then
            { c with status := .used, used_by_email := some email,
                     used_team_id := some tid, used_at := some now } else c),
        records := db.records ++ [⟨email, code, tid, aid, now⟩] } := by
    unfold use_code
    dsimp only
    rw [if_neg (by simp [hval]), hdb]
    exact rfl
  rw [hu]
  unfold findCode
  dsimp only
  rw [find_update_list db.codes code
    (fun c => { c with status := .used, used_by_email := some email,
                       used_team_id := some tid, used_at := some now })
    (fun c => rfl)]
  unfold findCode at hfind
  rw [hfind]
  rfl

theorem validate_not_unused (db : RDB) (code : String) (now : Int)
    (hf : Option.map (fun c => c.status) (findCode db code) = some CStatus.used) :
    validate_code db code now = (db, ⟨true, false, some "兑换码已被使用"⟩) := by
  cases hF : findCode db code with
  | none => rw [hF] at hf; simp at hf
  | some rc =>
    rw [hF] at hf
    have hst : rc.status = CStatus.used := by simpa using hf
    unfold validate_code
    rw [hF]
    dsimp only
    rw [if_pos (by simp [hst]), if_pos hst]

theorem use_code_invalid (db : RDB) (code email : String) (tid : Nat) (aid : String)
    (now : Int) (r : String)
    (h : validate_code db code now = (db, ⟨true, false, some r⟩)) :
    use_code db code email tid aid now = (db, ⟨false, some r⟩) := by
  unfold use_code
  rw [h]
  exact rfl

/-! ## C9 -/

/-- C9 (confirmed): no operation of the redemption engine ever assigns
`warranty_active` — every code row after an operation either was already
stored or carries the status the operation assigns (`unused` for
generation, `expired` for the validation flip, `used` for consumption);
and after a successful `use_code` the consumed code's stored status is
`used`, so every later `validate_code` reports invalid and every later
`use_code` fails until the status is changed outside these operations. -/
theorem c9_no_warranty_active :
    (∀ (db : RDB) (ca : Option String) (supply : Nat → Nat → Nat) (ea : Option Int)
        (hw : Bool) (wd : Nat) (c : RCode),
        c ∈ (generate_code_single db ca supply ea hw wd).1.codes →
        c ∈ db.codes ∨ c.status = CStatus.unused) ∧
    (∀ (db : RDB) (cnt : Int) (supply : Nat → Nat → Nat) (ea : Option Int)
        (hw : Bool) (wd : Nat) (c : RCode),
        c ∈ (generate_code_batch db cnt supply ea hw wd).1.codes →
        c ∈ db.codes ∨ c.status = CStatus.unused) ∧
    (∀ (db : RDB) (code : String) (now : Int) (c : RCode),
        c ∈ (validate_code db code now).1.codes →
        c ∈ db.codes ∨ c.status = CStatus.expired) ∧
    (∀ (db : RDB) (code email : String) (tid : Nat) (aid : String) (now : Int) (c : RCode),
        c ∈ (use_code db code email tid aid now).1.codes →
        c ∈ db.codes ∨ c.status = CStatus.expired ∨ c.status = CStatus.used) ∧
    (∀ (db : RDB) (code email : String) (tid : Nat) (aid : String) (now : Int)
        (e2 : String) (t2 : Nat) (a2 : String) (n2 : Int),
        (use_code db code email tid aid now).2.success = true →
        Option.map (fun c => c.status)
            (findCode (use_code db code email tid aid now).1 code) = some CStatus.used ∧
        (validate_code (use_code db code email tid aid now).1 code n2).2.valid = false ∧
        (use_code (use_code db code email tid aid now).1 code e2 t2 a2 n2).2.success
          = false) := by
  refine ⟨?_, ?_, ?_, ?_, ?_⟩
  · intro db ca supply ea hw wd c hc
    exact mem_single db ca supply ea hw wd c hc
  · intro db cnt supply ea hw wd c hc
    exact mem_batch db cnt supply ea hw wd c hc
  · intro db code now c hc
    exact mem_validate db code now c hc
  · intro db code email tid aid now c hc
    exact mem_use db code email tid aid now c hc
  · intro db code email tid aid now e2 t2 a2 n2 hsucc
    have hval := use_success_valid db code email tid aid now hsucc
    have hfind2 := use_success_find db code email tid aid now hval
    refine ⟨hfind2, ?_, ?_⟩
    · rw [validate_not_unused (use_code db code email tid aid now).1 code n2 hfind2]
    · rw [use_code_invalid (use_code db code email tid aid now).1 code e2 t2 a2 n2
        "兑换码已被使用" (validate_not_unused (use_code db code email tid aid now).1 code n2 hfind2)]

/-! ## C6 / C7 helpers -/

theorem att_supported (method : String) (env : Nat → AttemptOutcome) (i : Nat)
    (hm : methodSupported method = true) : attempt_outcome method env i = env i := by
  unfold attempt_outcome
  rw [if_pos hm]

theorem att_unsupported (method : String) (env : Nat → AttemptOutcome) (i : Nat)
    (hm : methodSupported method = false) :
    attempt_outcome method env i = .exc ("不支持的 HTTP 方法: " ++ method) := by
  unfold attempt_outcome
  rw [if_neg (by simp [hm])]

theorem go_2xx (method : String) (env : Nat → AttemptOutcome) (fuel i : Nat)
    (resp : HttpResponse) (hr : attempt_outcome method env i = .http resp)
    (h2 : 200 ≤ resp.status_code) (h3 : resp.status_code < 300) :
    make_request_go method env (fuel + 1) i =
      (⟨true, resp.status_code, some (resp.body.getD emptyJsonBody), none, none⟩, []) := by
  unfold make_request_go
  rw [hr]
  dsimp only
  rw [if_pos ⟨h2, h3⟩]

theorem go_4xx (method : String) (env : Nat → AttemptOutcome) (fuel i : Nat)
    (resp : HttpResponse) (hr : attempt_outcome method env i = .http resp)
    (h4 : 400 ≤ resp.status_code) (h5 : resp.status_code < 500) :
    make_request_go method env (fuel + 1) i =
      (⟨false, resp.status_code, none, (extract4xx resp).1, (extract4xx resp).2⟩, []) := by
  unfold make_request_go
  rw [hr]
  dsimp only
  rw [if_neg (by omega), if_pos ⟨h4, h5⟩]

theorem go_5xx_step (method : String) (env : Nat → AttemptOutcome) (fuel i : Nat)
    (resp : HttpResponse) (hr : attempt_outcome method env i = .http resp)
    (h5 : 500 ≤ resp.status_code) (hf : 1 ≤ fuel) :
    make_request_go method env (fuel + 1) i =
      ((make_request_go method env fuel (i + 1)).1,
       RETRY_DELAYS.getD i 0 :: (make_request_go method env fuel (i + 1)).2) := by
  unfold make_request_go
  rw [hr]
  dsimp only
  rw [if_neg (by omega), if_neg (by omega), if_pos h5, if_pos hf]
  rw [← make_request_go.eq_def]

theorem go_5xx_last (method : String) (env : Nat → AttemptOutcome) (i : Nat)
    (resp : HttpResponse) (hr : attempt_outcome method env i = .http resp)
    (h5 : 500 ≤ resp.status_code) :
    make_request_go method env 1 i =
      (⟨false, resp.status_code, none,
        some ("服务器错误 " ++ toString resp.status_code ++ ",已重试 "
              ++ toString MAX_RETRIES ++ " 次"), none⟩, []) := by
  show make_request_go method env (0 + 1) i = _
  unfold make_request_go
  rw [hr]
  dsimp only
  rw [if_neg (by omega), if_neg (by omega), if_pos h5, if_neg (by omega)]

theorem go_timeout_step (method : String) (env : Nat → AttemptOutcome) (fuel i : Nat)
    (hr : attempt_outcome method env i = .timeout) (hf : 1 ≤ fuel) :
    make_request_go method env (fuel + 1) i =
      ((make_request_go method env fuel (i + 1)).1,
       RETRY_DELAYS.getD i 0 :: (make_request_go method env fuel (i + 1)).2) := by
  unfold make_request_go
  rw [hr]
  dsimp only
  rw [if_pos hf]
  rw [← make_request_go.eq_def]

theorem go_timeout_last (method : String) (env : Nat → AttemptOutcome) (i : Nat)
    (hr : attempt_outcome method env i = .timeout) :
    make_request_go method env 1 i =
      (⟨false, 0, none,
        some ("请求超时,已重试 " ++ toString MAX_RETRIES ++ " 次"), none⟩, []) := by
  show make_request_go method env (0 + 1) i = _
  unfold make_request_go
  rw [hr]
  dsimp only
  rw [if_neg (by omega)]

theorem go_exc_step (method : String) (env : Nat → AttemptOutcome) (fuel i : Nat)
    (msg : String) (hr : attempt_outcome method env i = .exc msg) (hf : 1 ≤ fuel) :
    make_request_go method env (fuel + 1) i =
      ((make_request_go method env fuel (i + 1)).1,
       RETRY_DELAYS.getD i 0 :: (make_request_go method env fuel (i + 1)).2) := by
  unfold make_request_go
  rw [hr]
  dsimp only
  rw [if_pos hf]
  rw [← make_request_go.eq_def]

theorem go_exc_last (method : String) (env : Nat → AttemptOutcome) (i : Nat)
    (msg : String) (hr : attempt_outcome method env i = .exc msg) :
    make_request_go method env 1 i =
      (⟨false, 0, none, some ("请求异常: " ++ msg), none⟩, []) := by
  show make_request_go method env (0 + 1) i = _
  unfold make_request_go
  rw [hr]
  dsimp only
  rw [if_neg (by omega)]

theorem mr_agree (method : String) (env env2 : Nat → AttemptOutcome)
    (hagree : ∀ j, j < MAX_RETRIES → env j = env2 j) :
    make_request method env = make_request method env2 := by
  have key : ∀ fuel i, i + fuel ≤ MAX_RETRIES →
      make_request_go method env fuel i = make_request_go method env2 fuel i := by
    intro fuel
    induction fuel with
    | zero => intro i h; rfl
    | succ n ih =>
      intro i h
      have he : env i = env2 i := hagree i (by omega)
      have hr : make_request_go method env n (i + 1) =
          make_request_go method env2 n (i + 1) := ih (i + 1) (by omega)
      unfold make_request_go attempt_outcome
      rw [he, hr]
  exact key MAX_RETRIES 0 (by decide)

/-! ## C6 -/

/-- An upstream that would time out on every attempt (never reached for
an unsupported method, whose `ValueError` fires before any request). -/
def timeoutEnv : Nat → AttemptOutcome := fun _ => .timeout

/-- C6 counterexample: calling `_make_request` with method `PUT` is not
fatal — the `ValueError` raised at the dispatch is caught by the generic
`except Exception` handler, retried through the full backoff schedule
(sleeps 1s and 2s), and converted into a structured `success=false`
result returned to the caller, contradicting the claim on every count. -/
theorem c6_method_counterexample :
    methodSupported "PUT" = false ∧
    (make_request "PUT" timeoutEnv).1.success = false ∧
    (make_request "PUT" timeoutEnv).1.error = some "请求异常: 不支持的 HTTP 方法: PUT" ∧
    (make_request "PUT" timeoutEnv).2 = [1, 2] := by decide

/-- C6 (amended): an HTTP method other than GET/POST/DELETE raises
`ValueError` inside the retried `try` block, so the generic exception
handler retries it like any other exception (backoff 1s then 2s) and
after the third attempt returns the structured failure
`请求异常: 不支持的 HTTP 方法: <method>` — the unknown method is neither
fatal nor unretried. -/
theorem c6_method_amended (method : String) (env : Nat → AttemptOutcome)
    (h : methodSupported method = false) :
    make_request method env =
      (⟨false, 0, none, some ("请求异常: " ++ ("不支持的 HTTP 方法: " ++ method)), none⟩,
       [1, 2]) := by
  have h0 := att_unsupported method env 0 h
  have h1 := att_unsupported method env 1 h
  have h2 := att_unsupported method env 2 h
  have s2 : make_request_go method env 1 2 =
      (⟨false, 0, none, some ("请求异常: " ++ ("不支持的 HTTP 方法: " ++ method)), none⟩, []) :=
    go_exc_last method env 2 _ h2
  have s1 : make_request_go method env 2 1 =
      ((make_request_go method env 1 2).1,
       RETRY_DELAYS.getD 1 0 :: (make_request_go method env 1 2).2) :=
    go_exc_step method env 1 1 _ h1 (by decide)
  have s0 : make_request_go method env 3 0 =
      ((make_request_go method env 2 1).1,
       RETRY_DELAYS.getD 0 0 :: (make_request_go method env 2 1).2) :=
    go_exc_step method env 2 0 _ h0 (by decide)
  have hmr : make_request method env = make_request_go method env 3 0 := rfl
  rw [hmr, s0, s1, s2]
  rfl

/-- C6 witness: the amended statement evaluated at method `PATCH`. -/
theorem c6_method_witness :
    make_request "PATCH" timeoutEnv =
      (⟨false, 0, none, some ("请求异常: " ++ ("不支持的 HTTP 方法: " ++ "PATCH")), none⟩,
       [1, 2]) :=
  c6_method_amended "PATCH" timeoutEnv (by decide)

/-! ## C7 -/

/-- C7 (confirmed): the retry loop of `_make_request` (i) consults only
the first `MAX_RETRIES = 3` attempts; (ii) ends immediately with
`success=true` and the parsed body (empty object when parsing fails) on a
2xx; (iii) ends immediately, without retrying, on a 4xx with the body's
detail message and the `error.code` / top-level `code` extraction;
(iv)/(v) sleeps `RETRY_DELAYS[attempt]` and retries on a 5xx or a
timeout while budget remains; and (vi)/(vii) exhausting the budget on
5xx/timeout yields `success=false` with a message naming the retry
count, after the backoff trace `RETRY_DELAYS.take 2 = [1s, 2s]` drawn in
order from the fixed table `[1, 2, 4]`. -/
theorem c7_retry_policy :
    (∀ (method : String) (env env2 : Nat → AttemptOutcome),
        (∀ j, j < MAX_RETRIES → env j = env2 j) →
        make_request method env = make_request method env2) ∧
    (∀ (method : String) (env : Nat → AttemptOutcome) (fuel i : Nat) (resp : HttpResponse),
        methodSupported method = true → env i = .http resp →
        200 ≤ resp.status_code → resp.status_code < 300 →
        make_request_go method env (fuel + 1) i =
          (⟨true, resp.status_code, some (resp.body.getD emptyJsonBody), none, none⟩, [])) ∧
    (∀ (method : String) (env : Nat → AttemptOutcome) (fuel i : Nat) (resp : HttpResponse),
        methodSupported method = true → env i = .http resp →
        400 ≤ resp.status_code → resp.status_code < 500 →
        make_request_go method env (fuel + 1) i =
          (⟨false, resp.status_code, none, (extract4xx resp).1, (extract4xx resp).2⟩, [])) ∧
    (∀ (method : String) (env : Nat → AttemptOutcome) (fuel i : Nat) (resp : HttpResponse),
        methodSupported method = true → env i = .http resp →
        500 ≤ resp.status_code → 1 ≤ fuel →
        make_request_go method env (fuel + 1) i =
          ((make_request_go method env fuel (i + 1)).1,
           RETRY_DELAYS.getD i 0 :: (make_request_go method env fuel (i + 1)).2)) ∧
    (∀ (method : String) (env : Nat → AttemptOutcome) (fuel i : Nat),
        methodSupported method = true → env i = .timeout → 1 ≤ fuel →
        make_request_go method env (fuel + 1) i =
          ((make_request_go method env fuel (i + 1)).1,
           RETRY_DELAYS.getD i 0 :: (make_request_go method env fuel (i + 1)).2)) ∧
    (∀ (method : String) (env : Nat → AttemptOutcome) (resp : HttpResponse),
        methodSupported method = true →
        (∀ j, j < MAX_RETRIES → env j = .http resp) → 500 ≤ resp.status_code →
        make_request method env =
          (⟨false, resp.status_code, none,
            some ("服务器错误 " ++ toString resp.status_code ++ ",已重试 "
                  ++ toString MAX_RETRIES ++ " 次"), none⟩,
           RETRY_DELAYS.take (MAX_RETRIES - 1))) ∧
    (∀ (method : String) (env : Nat → AttemptOutcome),
        methodSupported method = true →
        (∀ j, j < MAX_RETRIES → env j = .timeout) →
        make_request method env =
          (⟨false, 0, none,
            some ("请求超时,已重试 " ++ toString MAX_RETRIES ++ " 次"), none⟩,
           RETRY_DELAYS.take (MAX_RETRIES - 1))) := by
  refine ⟨mr_agree, ?_, ?_, ?_, ?_, ?_, ?_⟩
  · intro method env fuel i resp hm hr h2 h3
    exact go_2xx method env fuel i resp (by rw [att_supported _ _ _ hm]; exact hr) h2 h3
  · intro method env fuel i resp hm hr h4 h5
    exact go_4xx method env fuel i resp (by rw [att_supported _ _ _ hm]; exact hr) h4 h5
  · intro method env fuel i resp hm hr h5 hf
    exact go_5xx_step method env fuel i resp (by rw [att_supported _ _ _ hm]; exact hr) h5 hf
  · intro method env fuel i hm hr hf
    exact go_timeout_step method env fuel i (by rw [att_supported _ _ _ hm]; exact hr) hf
  · intro method env resp hm hr h5
    have a0 : attempt_outcome method env 0 = .http resp := by
      rw [att_supported _ _ _ hm]; exact hr 0 (by decide)
    have a1 : attempt_outcome method env 1 = .http resp := by
      rw [att_supported _ _ _ hm]; exact hr 1 (by decide)
    have a2 : attempt_outcome method env 2 = .http resp := by
      rw [att_supported _ _ _ hm]; exact hr 2 (by decide)
    have s2 := go_5xx_last method env 2 resp a2 h5
    have s1 := go_5xx_step method env 1 1 resp a1 h5 (by decide)
    have s0 := go_5xx_step method env 2 0 resp a0 h5 (by decide)
    have hmr : make_request method env = make_request_go method env 3 0 := rfl
    rw [hmr, s0, s1, s2]
    rfl
  · intro method env hm hr
    have a0 : attempt_outcome method env 0 = .timeout := by
      rw [att_supported _ _ _ hm]; exact hr 0 (by decide)
    have a1 : attempt_outcome method env 1 = .timeout := by
      rw [att_supported _ _ _ hm]; exact hr 1 (by decide)
    have a2 : attempt_outcome method env 2 = .timeout := by
      rw [att_supported _ _ _ hm]; exact hr 2 (by decide)
    have s2 := go_timeout_last method env 2 a2
    have s1 := go_timeout_step method env 1 1 a1 (by decide)
    have s0 := go_timeout_step method env 2 0 a0 (by decide)
    have hmr : make_request method env = make_request_go method env 3 0 := rfl
    rw [hmr, s0, s1, s2]
    rfl

/-- A 2xx response with a JSON body. -/
def resp200 : HttpResponse := ⟨200, some ⟨some "ok", .absent, none⟩, "raw"⟩

/-- A 404 response whose body carries a detail message and an error-code
dictionary. -/
def resp404 : HttpResponse := ⟨404, some ⟨some "not found", .dict (some "team_not_found"), some "topcode"⟩, "raw404"⟩

/-- A 500 response with an unparseable body. -/
def resp500 : HttpResponse := ⟨500, none, "boom"⟩

/-- Environments answering every attempt identically. -/
def env200 : Nat → AttemptOutcome := fun _ => .http resp200

/-- The 2xx environment with outcomes beyond the retry budget changed. -/
def env200b : Nat → AttemptOutcome := fun i => if i < 3 then .http resp200 else .timeout

/-- The all-404 environment. -/
def env404 : Nat → AttemptOutcome := fun _ => .http resp404

/-- The all-500 environment. -/
def env500 : Nat → AttemptOutcome := fun _ => .http resp500

/-- C7 witness: every conjunct of the retry-policy theorem evaluated on
the concrete environments. -/
theorem c7_retry_witness :
    make_request "GET" env200 = make_request "GET" env200b ∧
    make_request_go "GET" env200 3 0 =
      (⟨true, 200, some ⟨some "ok", .absent, none⟩, none, none⟩, []) ∧
    make_request_go "POST" env404 3 0 =
      (⟨false, 404, none, some "not found", some "team_not_found"⟩, []) ∧
    make_request_go "GET" env500 3 0 =
      ((make_request_go "GET" env500 2 1).1, 1 :: (make_request_go "GET" env500 2 1).2) ∧
    make_request_go "GET" timeoutEnv 3 0 =
      ((make_request_go "GET" timeoutEnv 2 1).1, 1 :: (make_request_go "GET" timeoutEnv 2 1).2) ∧
    make_request "DELETE" env500 =
      (⟨false, 500, none,
        some ("服务器错误 " ++ toString (500 : Nat) ++ ",已重试 "
              ++ toString MAX_RETRIES ++ " 次"), none⟩, [1, 2]) ∧
    make_request "GET" timeoutEnv =
      (⟨false, 0, none,
        some ("请求超时,已重试 " ++ toString MAX_RETRIES ++ " 次"), none⟩, [1, 2]) :=
  ⟨c7_retry_policy.1 "GET" env200 env200b
     (fun j hj => by unfold env200 env200b; rw [if_pos (show j < 3 from hj)]),
   c7_retry_policy.2.1 "GET" env200 2 0 resp200 (by decide) rfl (by decide) (by decide),
   c7_retry_policy.2.2.1 "POST" env404 2 0 resp404 (by decide) rfl (by decide) (by decide),
   c7_retry_policy.2.2.2.1 "GET" env500 2 0 resp500 (by decide) rfl (by decide) (by decide),
   c7_retry_policy.2.2.2.2.1 "GET" timeoutEnv 2 0 (by decide) rfl (by decide),
   c7_retry_policy.2.2.2.2.2.1 "DELETE" env500 resp500 (by decide) (fun j hj => rfl) (by decide),
   c7_retry_policy.2.2.2.2.2.2 "GET" timeoutEnv (by decide) (fun j hj => rfl)⟩

/-! ## C8 -/

/-- C8 spec-side character set, written from the claim's words: an
uppercase letter or digit with `0`, `O`, `I` and `1` excluded. -/
def allowedChar (c : Char) : Bool :=
  decide ((('A' ≤ c ∧ c ≤ 'Z') ∨ ('0' ≤ c ∧ c ≤ '9')) ∧
    ¬ (c = '0' ∨ c = 'O' ∨ c = 'I' ∨ c = '1'))

/-- C8 spec-side format, written from the claim's words: four
hyphen-separated groups of four characters from the restricted set
(`XXXX-XXXX-XXXX-XXXX`). -/
def matchesCodeFormat (s : String) : Bool :=
  match s.data with
  | [a1, a2, a3, a4, '-', b1, b2, b3, b4, '-', d1, d2, d3, d4, '-', e1, e2, e3, e4] =>
    [a1, a2, a3, a4, b1, b2, b3, b4, d1, d2, d3, d4, e1, e2, e3, e4].all allowedChar
  | _ => false

theorem pick_allowed (n : Nat) :
    allowedChar (ALPHABET.getD (n % ALPHABET.length) 'A') = true := by
  have hb : ∀ k, k < ALPHABET.length → allowedChar (ALPHABET.getD k 'A') = true := by decide
  exact hb _ (Nat.mod_lt _ (by decide))

theorem generate_format (pick : Nat → Nat) :
    matchesCodeFormat (generate_random_code pick) = true := by
  unfold generate_random_code matchesCodeFormat
  simp only [List.take_succ_cons, List.take_zero, List.drop_succ_cons, List.drop_zero,
    List.cons_append, List.nil_append]
  have hp : ∀ n : Nat, allowedChar (ALPHABET[n % ALPHABET.length]?.getD 'A') = true := by
    intro n
    simpa [List.getD] using pick_allowed n
  simp [hp]

theorem try_generate_sound (db : RDB) (supply : Nat → Nat → Nat) (batch : List String) :
    ∀ (attempts k : Nat) (c : String),
      (try_generate db supply batch attempts k).1 = some c →
      c ∉ batch ∧ findCode db c = none ∧ matchesCodeFormat c = true := by
  intro attempts
  induction attempts with
  | zero =>
    intro k c h
    simp [try_generate] at h
  | succ n ih =>
    intro k c h
    unfold try_generate at h
    dsimp only at h
    split_ifs at h with hcond
    · simp only [Option.some.injEq] at h
      subst h
      exact ⟨hcond.1, hcond.2, generate_format _⟩
    · exact ih (k + 1) c h

theorem batch_loop_sound (db : RDB) (supply : Nat → Nat → Nat) :
    ∀ (i k : Nat) (acc : List String),
      acc.Nodup → (∀ c ∈ acc, findCode db c = none) →
      (∀ c ∈ acc, matchesCodeFormat c = true) →
      (batch_loop db supply i k acc).Nodup ∧
      (∀ c ∈ batch_loop db supply i k acc, findCode db c = none) ∧
      (∀ c ∈ batch_loop db supply i k acc, matchesCodeFormat c = true) ∧
      (batch_loop db supply i k acc).length ≤ acc.length + i := by
  intro i
  induction i with
  | zero =>
    intro k acc h1 h2 h3
    exact ⟨h1, h2, h3, by simp [batch_loop]⟩
  | succ n ih =>
    intro k acc h1 h2 h3
    unfold batch_loop
    dsimp only
    cases ht : (try_generate db supply acc 10 k).1 with
    | none =>
      obtain ⟨a, b, c, d⟩ := ih (try_generate db supply acc 10 k).2 acc h1 h2 h3
      exact ⟨a, b, c, by dsimp only; omega⟩
    | some code =>
      obtain ⟨hnb, hnf, hfmt⟩ := try_generate_sound db supply acc 10 k code ht
      have hnod : (acc ++ [code]).Nodup := by
        rw [List.nodup_append]
        refine ⟨h1, List.nodup_singleton _, ?_⟩
        intro x hx hx1
        simp at hx1
        subst hx1
        exact hnb hx
      have hfree : ∀ c ∈ acc ++ [code], findCode db c = none := by
        intro c hc
        rcases List.mem_append.mp hc with h | h
        · exact h2 c h
        · simp at h; subst h; exact hnf
      have hform : ∀ c ∈ acc ++ [code], matchesCodeFormat c = true := by
        intro c hc
        rcases List.mem_append.mp hc with h | h
        · exact h3 c h
        · simp at h; subst h; exact hfmt
      obtain ⟨a, b, c, d⟩ :=
        ih (try_generate db supply acc 10 k).2 (acc ++ [code]) hnod hfree hform
      refine ⟨a, b, c, ?_⟩
      have hl : (acc ++ [code]).length = acc.length + 1 := by simp
      dsimp only
      omega

/-- C8 counterexample: with the code `AAAA-AAAA-AAAA-AAAA` already
stored and a random stream that always draws index 0 (hence always that
same code), `generate_code_batch` with the in-range `count = 1` still
reports success but returns zero codes — the 10 generation attempts all
collide and the iteration is skipped — contradicting the claim's
"exactly count codes". -/
def c8db : RDB := ⟨[mkUnusedCode "AAAA-AAAA-AAAA-AAAA" none false 30], []⟩

/-- The constant random stream drawing alphabet index 0 forever. -/
def c8supply : Nat → Nat → Nat := fun _ _ => 0

theorem c8_batch_counterexample :
    (generate_code_batch c8db 1 c8supply none false 30).2.success = true ∧
    (generate_code_batch c8db 1 c8supply none false 30).2.codes = [] ∧
    (generate_code_batch c8db 1 c8supply none false 30).2.total = 0 := by decide

/-- C8 (amended): a count outside 1..1000 is rejected with an error and
an unchanged state; an in-range count returns success with AT MOST
`count` codes (iterations whose 10 generation attempts all collide are
skipped, so fewer may be returned), pairwise distinct, distinct from
every stored code, and each matching the `XXXX-XXXX-XXXX-XXXX` format
over the restricted alphabet, each accepted within the 10-attempt
budget. -/
theorem c8_batch_amended :
    (∀ (db : RDB) (cnt : Int) (supply : Nat → Nat → Nat) (ea : Option Int)
        (hw : Bool) (wd : Nat), cnt ≤ 0 ∨ 1000 < cnt →
        generate_code_batch db cnt supply ea hw wd =
          (db, ⟨false, [], 0, some "生成数量必须在 1-1000 之间"⟩)) ∧
    (∀ (db : RDB) (cnt : Int) (supply : Nat → Nat → Nat) (ea : Option Int)
        (hw : Bool) (wd : Nat), 1 ≤ cnt → cnt ≤ 1000 →
        (generate_code_batch db cnt supply ea hw wd).2.success = true ∧
        (generate_code_batch db cnt supply ea hw wd).2.codes.Nodup ∧
        (∀ c ∈ (generate_code_batch db cnt supply ea hw wd).2.codes,
            findCode db c = none) ∧
        (∀ c ∈ (generate_code_batch db cnt supply ea hw wd).2.codes,
            matchesCodeFormat c = true) ∧
        (generate_code_batch db cnt supply ea hw wd).2.codes.length ≤ cnt.toNat) := by
  constructor
  · intro db cnt supply ea hw wd h
    unfold generate_code_batch
    rw [if_pos h]
  · intro db cnt supply ea hw wd h1 h2
    unfold generate_code_batch
    rw [if_neg (by omega)]
    dsimp only
    obtain ⟨a, b, c, d⟩ := batch_loop_sound db supply cnt.toNat 0 []
      List.nodup_nil (by intro c hc; simp at hc) (by intro c hc; simp at hc)
    exact ⟨rfl, a, b, c, by simpa using d⟩

/-- The empty state and the stream whose k-th invocation draws alphabet
index k for every character. -/
def c8dbE : RDB := ⟨[], []⟩

/-- Per-invocation constant stream: invocation k always picks index k. -/
def c8supply2 : Nat → Nat → Nat := fun k _ => k

/-- C8 witness: the amended statement evaluated at the out-of-range
count 0 and at count 2 on the empty state. -/
theorem c8_batch_witness :
    generate_code_batch c8dbE 0 c8supply2 none false 30 =
      (c8dbE, ⟨false, [], 0, some "生成数量必须在 1-1000 之间"⟩) ∧
    (generate_code_batch c8dbE 2 c8supply2 none false 30).2.success = true ∧
    (generate_code_batch c8dbE 2 c8supply2 none false 30).2.codes.Nodup ∧
    (∀ c ∈ (generate_code_batch c8dbE 2 c8supply2 none false 30).2.codes,
        findCode c8dbE c = none) ∧
    (∀ c ∈ (generate_code_batch c8dbE 2 c8supply2 none false 30).2.codes,
        matchesCodeFormat c = true) ∧
    (generate_code_batch c8dbE 2 c8supply2 none false 30).2.codes.length ≤ (2 : Int).toNat :=
  ⟨c8_batch_amended.1 c8dbE 0 c8supply2 none false 30 (by norm_num),
   (c8_batch_amended.2 c8dbE 2 c8supply2 none false 30 (by norm_num) (by norm_num)).1,
   (c8_batch_amended.2 c8dbE 2 c8supply2 none false 30 (by norm_num) (by norm_num)).2.1,
   (c8_batch_amended.2 c8dbE 2 c8supply2 none false 30 (by norm_num) (by norm_num)).2.2.1,
   (c8_batch_amended.2 c8dbE 2 c8supply2 none false 30 (by norm_num) (by norm_num)).2.2.2.1,
   (c8_batch_amended.2 c8dbE 2 c8supply2 none false 30 (by norm_num) (by norm_num)).2.2.2.2⟩

/-! ## C10 -/

/-- The adversarial upstream: every page reports success with an empty
items list and total 1, so the accumulated count never reaches the
total. -/
def emptyPages : Nat → PageResp := fun _ => ⟨true, [], 1, none⟩

theorem emptyPages_diverges :
    ∀ (fuel offset : Nat), get_members_go emptyPages fuel offset [] = none := by
  intro fuel
  induction fuel with
  | zero => intro off; rfl
  | succ n ih =>
    intro off
    unfold get_members_go
    simp only [emptyPages]
    rw [if_neg (by simp)]
    simp only [List.append_nil]
    rw [if_neg (by simp)]
    exact ih (off + 50)

/-- C10 counterexample: against the upstream that always succeeds with
an empty page and a positive total, the pagination loop of `get_members`
never returns, whatever bound (`fuel`) it is given — the source's
`while True` loop does not terminate for every sequence of upstream
responses. -/
theorem c10_pagination_counterexample :
    ¬ ∃ fuel : Nat, (get_members_fuel emptyPages fuel).isSome = true := by
  rintro ⟨fuel, h⟩
  unfold get_members_fuel at h
  rw [emptyPages_diverges fuel 0] at h
  simp at h

theorem go_terminates (pages : Nat → PageResp) (T : Nat)
    (hs : ∀ off, (pages off).success = true)
    (htot : ∀ off, (pages off).total = T)
    (hnon : ∀ off, (pages off).items ≠ []) :
    ∀ (fuel offset : Nat) (acc : List String), 1 ≤ fuel → T ≤ acc.length + fuel →
      ∃ r, get_members_go pages fuel offset acc = some r ∧ r.success = true := by
  intro fuel
  induction fuel with
  | zero =>
    intro off acc h1 h2
    exact absurd h1 (by omega)
  | succ n ih =>
    intro off acc h1 h2
    unfold get_members_go
    rw [if_neg (by simp [hs off])]
    by_cases hdone : (pages off).total ≤ (acc ++ (pages off).items).length
    · rw [if_pos hdone]
      exact ⟨_, rfl, rfl⟩
    · rw [if_neg hdone]
      have hpos : 0 < (pages off).items.length := List.length_pos.mpr (hnon off)
      have hlen : acc.length + 1 ≤ (acc ++ (pages off).items).length := by
        rw [List.length_append]
        omega
      rw [htot off] at hdone
      have hn1 : 1 ≤ n := by
        by_contra hn
        have hn0 : n = 0 := by omega
        subst hn0
        omega
      exact ih (off + 50) (acc ++ (pages off).items) hn1 (by omega)

/-- C10 (amended): the pagination loop returns failure as soon as any
page is unsuccessful; and it does terminate whenever every successful
page is nonempty and reports one fixed total `T` (within `T + 1` pages);
but an upstream that keeps answering success with an empty items list
and a positive total makes the loop run forever, so termination does not
hold for every sequence of upstream page responses. -/
theorem c10_pagination_amended :
    (∀ (pages : Nat → PageResp) (fuel offset : Nat) (acc : List String),
        (pages offset).success = false →
        get_members_go pages (fuel + 1) offset acc =
          some ⟨false, [], 0, (pages offset).error⟩) ∧
    (∀ (pages : Nat → PageResp) (T : Nat),
        (∀ off, (pages off).success = true) →
        (∀ off, (pages off).total = T) →
        (∀ off, (pages off).items ≠ []) →
        ∃ r, get_members_fuel pages (T + 1) = some r ∧ r.success = true) := by
  constructor
  · intro pages fuel offset acc h
    unfold get_members_go
    rw [if_pos (by simp [h])]
  · intro pages T hs htot hnon
    exact go_terminates pages T hs htot hnon (T + 1) 0 [] (by omega) (by simp)

/-- A failing first page and a one-member upstream for the witness. -/
def failPages : Nat → PageResp := fun _ => ⟨false, [], 0, some "boom"⟩

/-- The upstream with exactly one member on every page. -/
def onePage : Nat → PageResp := fun _ => ⟨true, ["member-1"], 1, none⟩

/-- C10 witness: the amended statement evaluated at a failing first page
and at the one-member upstream (fuel 2 suffices for total 1). -/
theorem c10_pagination_witness :
    get_members_go failPages 1 0 [] = some ⟨false, [], 0, some "boom"⟩ ∧
    ∃ r, get_members_fuel onePage 2 = some r ∧ r.success = true :=
  ⟨c10_pagination_amended.1 failPages 0 0 [] rfl,
   c10_pagination_amended.2 onePage 1 (fun _ => rfl) (fun _ => rfl)
     (fun _ => List.cons_ne_nil _ _)⟩

/-! ## C9 witness fixtures -/

/-- A state with one unused code that has already passed its first-use
deadline at time 10. -/
def c9dbExp : RDB := ⟨[mkUnusedCode "EEEE" (some 5) false 30], []⟩

/-- A state with one live unused code. -/
def c9dbUse : RDB := ⟨[mkUnusedCode "QQQQ" none false 30], []⟩

/-- C9 witness: the theorem evaluated at concrete states — a custom
generated code is `unused`, a batch-generated code is `unused`, the
expired-flip of `validate_code` yields `expired`, a consumed code is
`used`, and after a successful `use_code` the stored status is `used`
with the later validation and consumption failing. -/
theorem c9_no_warranty_witness :
    (mkUnusedCode "ZZZZ" none false 30 ∈ c8dbE.codes ∨
      (mkUnusedCode "ZZZZ" none false 30).status = CStatus.unused) ∧
    (mkUnusedCode "AAAA-AAAA-AAAA-AAAA" none false 30 ∈ c8dbE.codes ∨
      (mkUnusedCode "AAAA-AAAA-AAAA-AAAA" none false 30).status = CStatus.unused) ∧
    ({ mkUnusedCode "EEEE" (some 5) false 30 with status := CStatus.expired } ∈ c9dbExp.codes ∨
      ({ mkUnusedCode "EEEE" (some 5) false 30 with status := CStatus.expired } : RCode).status
        = CStatus.expired) ∧
    (Option.map (fun c => c.status)
        (findCode (use_code c9dbUse "QQQQ" "u@x.com" 1 "acc-1" 7).1 "QQQQ") = some CStatus.used ∧
      (validate_code (use_code c9dbUse "QQQQ" "u@x.com" 1 "acc-1" 7).1 "QQQQ" 9).2.valid = false ∧
      (use_code (use_code c9dbUse "QQQQ" "u@x.com" 1 "acc-1" 7).1 "QQQQ" "v@y.com" 2 "acc-2" 9).2.success
        = false) :=
  ⟨c9_no_warranty_active.1 c8dbE (some "ZZZZ") c8supply2 none false 30
     (mkUnusedCode "ZZZZ" none false 30) (by decide),
   c9_no_warranty_active.2.1 c8dbE 1 c8supply2 none false 30
     (mkUnusedCode "AAAA-AAAA-AAAA-AAAA" none false 30) (by decide),
   c9_no_warranty_active.2.2.1 c9dbExp "EEEE" 10
     { mkUnusedCode "EEEE" (some 5) false 30 with status := CStatus.expired } (by decide),
   c9_no_warranty_active.2.2.2.2 c9dbUse "QQQQ" "u@x.com" 1 "acc-1" 7 "v@y.com" 2 "acc-2" 9
     (by decide)⟩

end TeamManage
